import Mathlib

/-! Shallow embedding of the WDT receiver worker state machine
(`src/ReceiverThread.cpp`).  External collaborators -- the server socket,
the protocol codec, the file writer, the threads controller and the parent
receiver -- are abstracted as oracle inputs (`Env`): every socket
read/write result, decode outcome and funnel status is an input, while the
worker's own control flow and member-field updates are translated line by
line from the source.  `WDT_CHECK` / glog `CHECK` failures abort the whole
process; they are modelled as a transition to `FAILED` with the ghost flag
`crashed` set (scope guards do not run on such an abort). -/

namespace Wdt

/-- ErrorCode taxonomy (ErrorCodes.h, as used by ReceiverThread.cpp). -/
inductive ErrorCode where
  | OK
  | ERROR
  | ABORT
  | CONN_ERROR
  | SOCKET_READ_ERROR
  | SOCKET_WRITE_ERROR
  | FILE_WRITE_ERROR
  | MEMORY_ALLOCATION_ERROR
  | PROTOCOL_ERROR
  | VERSION_INCOMPATIBLE
  | ID_MISMATCH
  | CHECKSUM_MISMATCH
  | VERSION_MISMATCH
  deriving DecidableEq, Repr

/-- The states of the receiver worker (ReceiverState). -/
inductive ReceiverState where
  | LISTEN
  | ACCEPT_FIRST_CONNECTION
  | ACCEPT_WITH_TIMEOUT
  | SEND_LOCAL_CHECKPOINT
  | READ_NEXT_CMD
  | PROCESS_FILE_CMD
  | PROCESS_SETTINGS_CMD
  | PROCESS_DONE_CMD
  | PROCESS_SIZE_CMD
  | SEND_FILE_CHUNKS
  | SEND_GLOBAL_CHECKPOINTS
  | SEND_DONE_CMD
  | SEND_ABORT_CMD
  | WAIT_FOR_FINISH_OR_NEW_CHECKPOINT
  | FINISH_WITH_ERROR
  | END
  | FAILED
  deriving DecidableEq, Repr

/-- Command magic bytes (Protocol::CMD_MAGIC); `UNKNOWN_CMD` stands for any
byte value that is none of the known magics. -/
inductive Cmd where
  | DONE_CMD
  | FILE_CMD
  | SETTINGS_CMD
  | SIZE_CMD
  | FOOTER_CMD
  | CHUNKS_CMD
  | ACK_CMD
  | WAIT_CMD
  | ERR_CMD
  | ABORT_CMD
  | UNKNOWN_CMD
  deriving DecidableEq, Repr

/-- Status of a controller funnel as returned by getStatus(). -/
inductive FunnelStatus where
  | FUNNEL_START
  | FUNNEL_PROGRESS
  | FUNNEL_END
  deriving DecidableEq, Repr

/-- Checkpoint record (Protocol.h).  `numBlocks = -1` is the sentinel for a
failed DONE send; the lastBlock fields describe partial progress on an
in-flight block. -/
structure Checkpoint where
  port : Int
  numBlocks : Int := 0
  hasSeqId : Bool := false
  lastBlockSeqId : Int := 0
  lastBlockOffset : Int := 0
  lastBlockBytes : Int := 0
  deriving DecidableEq, Repr

/-- Modelled from the spec: `Checkpoint.incrNumBlocks` mutator (section 4.3);
Protocol.cpp is not part of the sources. -/
def Checkpoint.incrNumBlocks (c : Checkpoint) : Checkpoint :=
  {c with numBlocks := c.numBlocks + 1}

/-- Modelled from the spec: `Checkpoint.resetLastBlockDetails` mutator
(section 4.3); clears the optional partial-block progress. -/
def Checkpoint.resetLastBlockDetails (c : Checkpoint) : Checkpoint :=
  {c with hasSeqId := false, lastBlockSeqId := 0, lastBlockOffset := 0, lastBlockBytes := 0}

/-- Modelled from the spec: `Checkpoint.setLastBlockDetails` mutator
(section 4.3); records partial progress of the current block. -/
def Checkpoint.setLastBlockDetails (c : Checkpoint) (seqId offset bytes : Int) : Checkpoint :=
  {c with hasSeqId := true, lastBlockSeqId := seqId, lastBlockOffset := offset,
          lastBlockBytes := bytes}

/-- Modelled from the spec: per-worker ThreadStats counters (section 3);
Reporting.h is not part of the sources, only the mutators that
ReceiverThread.cpp calls are modelled. -/
structure ThreadStats where
  localErrorCode : ErrorCode := .OK
  remoteErrorCode : ErrorCode := .OK
  headerBytes : Int := 0
  dataBytes : Int := 0
  effectiveHeaderBytes : Int := 0
  effectiveDataBytes : Int := 0
  numBlocks : Int := 0
  numFiles : Int := 0
  failedAttempts : Int := 0
  numBlocksSend : Int := -1
  totalSenderBytes : Int := -1
  deriving DecidableEq, Repr

/-- The mutable per-worker state of ReceiverThread that the state handlers
read and write.  `connClosed`, `crashed`, `lastFunnelNotify` and
`sentLocalCheckpoints` are ghost observables: the latest closeConnection /
process-abort / funnel-notification / encodeCheckpoints effect. -/
structure Worker where
  port : Int
  threadProtocolVersion : Int
  bufferSize : Int
  numRead : Int := 0
  off : Int := 0
  oldOffset : Int := 0
  checkpointIndex : Int := 0
  pendingCheckpointIndex : Int := 0
  doneSendFailure : Bool := false
  senderReadTimeout : Int := -1
  senderWriteTimeout : Int := -1
  curConnectionVerified : Bool := false
  enableChecksum : Bool := false
  isBlockMode : Bool := true
  stats : ThreadStats := {}
  checkpoint : Checkpoint
  newCheckpoints : List Checkpoint := []
  transferLog : List (Int × Int × Int) := []
  connClosed : Bool := false
  crashed : Bool := false
  lastFunnelNotify : Option Bool := none
  sentLocalCheckpoints : List Checkpoint := []
  deriving DecidableEq, Repr

/-- threadStats_.setLocalErrorCode. -/
def setLocalError (w : Worker) (c : ErrorCode) : Worker :=
  {w with stats := {w.stats with localErrorCode := c}}

/-- threadStats_.addHeaderBytes. -/
def addHeaderBytes (w : Worker) (n : Int) : Worker :=
  {w with stats := {w.stats with headerBytes := w.stats.headerBytes + n}}

/-- threadStats_.addDataBytes. -/
def addDataBytes (w : Worker) (n : Int) : Worker :=
  {w with stats := {w.stats with dataBytes := w.stats.dataBytes + n}}

/-- threadStats_.addEffectiveBytes(headerBytes, dataBytes). -/
def addEffectiveBytes (w : Worker) (h d : Int) : Worker :=
  {w with stats := {w.stats with effectiveHeaderBytes := w.stats.effectiveHeaderBytes + h,
                                 effectiveDataBytes := w.stats.effectiveDataBytes + d}}

/-- threadStats_.incrFailedAttempts. -/
def incrFailedAttempts (w : Worker) : Worker :=
  {w with stats := {w.stats with failedAttempts := w.stats.failedAttempts + 1}}

/-- Configuration and protocol constants consumed by the worker
(WdtOptions, Protocol.h constants, parent transfer id, and the two protocol
helper functions the worker invokes). -/
structure Config where
  transferId : String
  kMinBufLength : Int
  kMaxHeader : Int
  checkpointOffsetVersion : Int
  maxAcceptRetries : Nat
  enableDownloadResumption : Bool
  isLogBasedResumption : Bool
  getMaxLocalCheckpointLength : Int → Int
  negotiateProtocol : Int → Int → Int

/-- The while loop of readAtLeast (lines 38-57): keep reading until `len`
reaches `atLeast`; a negative read result is an error (surfaced only when
nothing was accumulated), a zero read is EOF.  `reads` is the sequence of
socket read results; when it is exhausted the loop would block forever on
the socket, which is modelled like an EOF-terminated trace. -/
def readAtLeastLoop (atLeast : Int) : List Int → Int → Int
  | reads, len =>
    if len < atLeast then
      match reads with
      | [] => len
      | n :: rest =>
        if n < 0 then (if len = 0 then n else len)
        else if n = 0 then len
        else readAtLeastLoop atLeast rest (len + n)
    else len

/-- readAtLeast (lines 30-61).  The three glog CHECKs abort the process on
violation, modelled by `none`. -/
def readAtLeast (reads : List Int) (max atLeast len : Int) : Option Int :=
  if 0 ≤ len ∧ 0 < atLeast ∧ atLeast ≤ max then
    some (readAtLeastLoop atLeast reads len)
  else
    none

/-- One iteration of the payload read/write loop of PROCESS_FILE_CMD
(lines 464-489): the abort-code poll, the readAtMost result off the
socket, and the FileWriter write result for those bytes. -/
structure FileLoopIter where
  abortCode : ErrorCode := .OK
  readResult : Int := 0
  writeCode : ErrorCode := .OK
  deriving DecidableEq, Repr

/-- One iteration of the chunk-packet write loop of SEND_FILE_CHUNKS
(lines 670-684): how many entries encodeFileChunksInfoList packed, by how
much it advanced the offset, and the socket write result. -/
structure ChunkIter where
  numEntriesEncoded : Int := 0
  encodeAdvance : Int := 0
  written : Int := 0
  deriving DecidableEq, Repr

/-- One poll of the SEND_FILE_CHUNKS funnel loop (lines 619-648): the
funnel status and, for the End/Progress branches, the result of the
one-byte ACK/WAIT write. -/
structure SfcIter where
  status : FunnelStatus := .FUNNEL_END
  oneByteWritten : Int := 1
  deriving DecidableEq, Repr

/-- One iteration of WAIT_FOR_FINISH_OR_NEW_CHECKPOINT (lines 824-851):
the parent's new checkpoints and the controller's has-running answer for
the two checkForFinishOrNewCheckpoints calls, and the result of the
keep-alive WAIT write. -/
structure WaitIter where
  newCps1 : List Checkpoint := []
  hasRunning1 : Bool := true
  newCps2 : List Checkpoint := []
  hasRunning2 : Bool := true
  waitWritten : Int := 1
  deriving DecidableEq, Repr

/-- Oracle inputs for one invocation of a state handler: the results of
every call the handler makes into its collaborators (socket, codec,
controller, parent, file writer). -/
structure Env where
  -- LISTEN: listen() results of the retry loop, then of the final attempt
  listenResults : List ErrorCode := []
  listenFinal : ErrorCode := .OK
  -- ACCEPT_FIRST_CONNECTION: per-iteration parent/controller/socket answers
  afHasNewTransfer : Nat → Bool := fun _ => false
  afAbortCode : Nat → ErrorCode := fun _ => .OK
  afAccept : Nat → ErrorCode := fun _ => .OK
  -- ACCEPT_WITH_TIMEOUT
  socketNonRetryableErr : ErrorCode := .OK
  acceptResult : ErrorCode := .OK
  -- SEND_LOCAL_CHECKPOINT: socket write result
  localCheckpointWritten : Int := 0
  -- READ_NEXT_CMD: socket reads, then the magic byte at buf_[off_]
  readNextReads : List Int := []
  nextCmd : Cmd := .UNKNOWN_CMD
  -- PROCESS_SETTINGS_CMD: decode results and decoded settings
  decodeVersionOk : Bool := true
  decodeVersionAdvance : Int := 0
  senderProtocolVersion : Int := 0
  decodeSettingsOk : Bool := true
  decodeSettingsAdvance : Int := 0
  settingsTransferId : String := ""
  settingsReadTimeout : Int := 0
  settingsWriteTimeout : Int := 0
  settingsEnableChecksum : Bool := false
  settingsBlockModeDisabled : Bool := false
  settingsSendFileChunks : Bool := false
  -- PROCESS_FILE_CMD
  fcFunnelStatus : FunnelStatus := .FUNNEL_END
  transferStatus : ErrorCode := .OK
  headerLen : Int := 0
  headerReads : List Int := []
  decodeHeaderOk : Bool := true
  decodeHeaderAdvance : Int := 0
  blockFileName : String := ""
  blockSeqId : Int := 0
  blockOffset : Int := 0
  blockDataSize : Int := 0
  writerOpen : ErrorCode := .OK
  firstWriteCode : ErrorCode := .OK
  fileLoop : List FileLoopIter := []
  crcStep : Int → Int → Int := fun c _ => c
  footerReads : List Int := []
  footerCmd : Cmd := .FOOTER_CMD
  decodeFooterOk : Bool := true
  decodeFooterAdvance : Int := 0
  receivedChecksum : Int := 0
  -- PROCESS_DONE_CMD
  doneSenderStatus : ErrorCode := .OK
  decodeDoneOk : Bool := true
  decodeDoneAdvance : Int := 0
  doneNumBlocksSend : Int := 0
  doneTotalSenderBytes : Int := 0
  -- PROCESS_SIZE_CMD
  decodeSizeOk : Bool := true
  decodeSizeAdvance : Int := 0
  sizeTotalSenderBytes : Int := 0
  -- SEND_FILE_CHUNKS
  sfcStatuses : List SfcIter := []
  numParsedChunksInfo : Int := 0
  chunksEncodeAdvance : Int := 0
  envelopeWritten : Int := 0
  chunkIters : List ChunkIter := []
  ackReadResult : Int := 1
  -- SEND_GLOBAL_CHECKPOINTS
  gcEncodeAdvance : Int := 0
  gcWritten : Int := 0
  -- SEND_DONE_CMD
  doneWrite : Int := 1
  doneAckRead : Int := 1
  doneAckByte : Cmd := .DONE_CMD
  doneEofRead : Int := 0
  -- SEND_ABORT_CMD
  abortEncodeAdvance : Int := 0
  abortWritten : Int := 0
  -- WAIT_FOR_FINISH_OR_NEW_CHECKPOINT
  wfIters : List WaitIter := []

/-- Outcome of the bounded bind/listen retry loop of LISTEN
(lines 111-122). -/
inductive ListenLoopOutcome where
  | ok
  | fatal
  | exhausted
  deriving DecidableEq, Repr

/-- The retry loop of LISTEN: break on OK, fail fatally on CONN_ERROR,
otherwise sleep and retry; the list holds one listen() result per
iteration (the loop body runs at most max_retries - 1 times). -/
def listenLoop : List ErrorCode → ListenLoopOutcome
  | [] => .exhausted
  | c :: rest =>
    if c = .OK then .ok
    else if c = .CONN_ERROR then .fatal
    else listenLoop rest

/-- LISTEN state handler (lines 102-130). -/
def listen (_cfg : Config) (env : Env) (w : Worker) : ReceiverState × Worker :=
  match listenLoop env.listenResults with
  | .fatal => (.FAILED, setLocalError w .CONN_ERROR)
  | _ =>
    if env.listenFinal ≠ .OK then (.FAILED, setLocalError w .CONN_ERROR)
    else (.ACCEPT_FIRST_CONNECTION, w)

/-- reset() (lines 914-924).  The stats are cleared, session negotiation
fields are cleared, and the checkpoint is replaced by a fresh
Checkpoint(port); `checkpoints_` (cleared there too) has no other use in
ReceiverThread.cpp and is not modelled. -/
def resetWorker (w : Worker) : Worker :=
  {w with numRead := 0, off := 0, checkpointIndex := 0, pendingCheckpointIndex := 0,
          doneSendFailure := false, senderReadTimeout := -1, senderWriteTimeout := -1,
          curConnectionVerified := false, stats := {}, newCheckpoints := [],
          checkpoint := { port := w.port }}

/-- Outcome of the accept loop of ACCEPT_FIRST_CONNECTION. -/
inductive AcceptFirstOutcome where
  | newTransfer
  | maxAttempts
  | aborted
  | accepted
  deriving DecidableEq, Repr

/-- The accept loop of ACCEPT_FIRST_CONNECTION (lines 141-166).  `fuel` is
`max_accept_retries - acceptAttempts` (the loop starts with
acceptAttempts = 0), `i` numbers the iterations for the oracles. -/
def acceptFirstLoop (hasNew : Nat → Bool) (abortC : Nat → ErrorCode) (accept : Nat → ErrorCode) :
    Nat → Nat → AcceptFirstOutcome
  | fuel, i =>
    if hasNew i then .newTransfer
    else
      match fuel with
      | 0 => .maxAttempts
      | fuel' + 1 =>
        if abortC i ≠ .OK then .aborted
        else if accept i = .OK then .accepted
        else acceptFirstLoop hasNew abortC accept fuel' (i + 1)

/-- ACCEPT_FIRST_CONNECTION state handler (lines 133-172).  The
executeAtStart hook runs startNewGlobalSession in the parent and leaves no
trace in the worker. -/
def acceptFirstConnection (cfg : Config) (env : Env) (w : Worker) : ReceiverState × Worker :=
  let w := resetWorker w
  let w := {w with connClosed := true}
  match acceptFirstLoop env.afHasNewTransfer env.afAbortCode env.afAccept cfg.maxAcceptRetries 0 with
  | .newTransfer => (.ACCEPT_WITH_TIMEOUT, w)
  | .maxAttempts => (.FAILED, setLocalError w .CONN_ERROR)
  | .aborted => (.FAILED, w)
  | .accepted => (.READ_NEXT_CMD, {w with connClosed := false})

/-- ACCEPT_WITH_TIMEOUT state handler (lines 175-223). -/
def acceptWithTimeout (_cfg : Config) (env : Env) (w : Worker) : ReceiverState × Worker :=
  if env.socketNonRetryableErr ≠ .OK then
    (.END, setLocalError w env.socketNonRetryableErr)
  else
    let w := {w with connClosed := true}
    let w := {w with curConnectionVerified := false}
    if env.acceptResult ≠ .OK then
      let w := setLocalError w env.acceptResult
      if w.doneSendFailure then (.END, w) else (.FINISH_WITH_ERROR, w)
    else
      let w := {w with connClosed := false}
      if w.doneSendFailure then
        (.SEND_LOCAL_CHECKPOINT, w)
      else
        let w := {w with numRead := 0, off := 0,
                         pendingCheckpointIndex := w.checkpointIndex}
        let nextState :=
          if w.stats.localErrorCode ≠ .OK then ReceiverState.SEND_LOCAL_CHECKPOINT
          else ReceiverState.READ_NEXT_CMD
        (nextState, setLocalError w .OK)

/-- SEND_LOCAL_CHECKPOINT state handler (lines 226-257).  The encoded
one-element checkpoint list is recorded in the ghost field
`sentLocalCheckpoints`. -/
def sendLocalCheckpoint (cfg : Config) (env : Env) (w : Worker) : ReceiverState × Worker :=
  let checkpoints :=
    if w.doneSendFailure then [{ port := w.port, numBlocks := -1 : Checkpoint }]
    else [w.checkpoint]
  let checkpointLen := cfg.getMaxLocalCheckpointLength w.threadProtocolVersion
  let w := {w with sentLocalCheckpoints := checkpoints}
  if env.localCheckpointWritten ≠ checkpointLen then
    (.ACCEPT_WITH_TIMEOUT, setLocalError w .SOCKET_WRITE_ERROR)
  else
    let w := addHeaderBytes w checkpointLen
    if w.doneSendFailure then (.SEND_DONE_CMD, w) else (.READ_NEXT_CMD, w)

/-- READ_NEXT_CMD state handler (lines 260-287). -/
def readNextCmd (cfg : Config) (env : Env) (w : Worker) : ReceiverState × Worker :=
  let w := {w with oldOffset := w.off}
  match readAtLeast env.readNextReads (w.bufferSize - w.off) cfg.kMinBufLength w.numRead with
  | none => (.FAILED, {w with crashed := true})
  | some numRead =>
    let w := {w with numRead := numRead}
    if numRead < cfg.kMinBufLength then
      (.ACCEPT_WITH_TIMEOUT, setLocalError w .SOCKET_READ_ERROR)
    else
      let w := {w with off := w.off + 1}
      match env.nextCmd with
      | .DONE_CMD => (.PROCESS_DONE_CMD, w)
      | .FILE_CMD => (.PROCESS_FILE_CMD, w)
      | .SETTINGS_CMD => (.PROCESS_SETTINGS_CMD, w)
      | .SIZE_CMD => (.PROCESS_SIZE_CMD, w)
      | _ => (.FINISH_WITH_ERROR, setLocalError w .PROTOCOL_ERROR)

/-- Tail of PROCESS_SETTINGS_CMD after version agreement (lines 323-352). -/
def settingsAfterVersion (cfg : Config) (env : Env) (w : Worker) : ReceiverState × Worker :=
  if ¬ env.decodeSettingsOk then
    (.FINISH_WITH_ERROR, setLocalError w .PROTOCOL_ERROR)
  else
    let w := {w with off := w.off + env.decodeSettingsAdvance}
    if cfg.transferId ≠ env.settingsTransferId then
      (.SEND_ABORT_CMD, setLocalError w .ID_MISMATCH)
    else
      let w := {w with senderReadTimeout := env.settingsReadTimeout,
                       senderWriteTimeout := env.settingsWriteTimeout,
                       enableChecksum := env.settingsEnableChecksum,
                       isBlockMode := ¬ env.settingsBlockModeDisabled,
                       curConnectionVerified := true}
      if env.settingsSendFileChunks then
        (.SEND_FILE_CHUNKS, {w with numRead := 0, off := 0})
      else
        let msgLen := w.off - w.oldOffset
        (.READ_NEXT_CMD, {w with numRead := w.numRead - msgLen})

/-- PROCESS_SETTINGS_CMD state handler (lines 290-353). -/
def processSettingsCmd (cfg : Config) (env : Env) (w : Worker) : ReceiverState × Worker :=
  if ¬ env.decodeVersionOk then
    (.FINISH_WITH_ERROR, setLocalError w .PROTOCOL_ERROR)
  else
    let w := {w with off := w.off + env.decodeVersionAdvance}
    if env.senderProtocolVersion ≠ w.threadProtocolVersion then
      let neg := cfg.negotiateProtocol env.senderProtocolVersion w.threadProtocolVersion
      if neg = 0 then
        (.SEND_ABORT_CMD, setLocalError w .VERSION_INCOMPATIBLE)
      else
        let w := {w with threadProtocolVersion := neg}
        if neg ≠ env.senderProtocolVersion then
          (.SEND_ABORT_CMD, setLocalError w .VERSION_MISMATCH)
        else settingsAfterVersion cfg env w
    else settingsAfterVersion cfg env w

/-- First block of PROCESS_FILE_CMD (lines 362-371): on the first file cmd
with download resumption enabled, the funnel-elected worker writes the
"sender not resuming" transfer-log header (a parent effect) and notifies
funnel success, recorded in the ghost field `lastFunnelNotify`. -/
def fileCmdResumptionHeader (cfg : Config) (env : Env) (w : Worker) : Worker :=
  {w with lastFunnelNotify :=
    if cfg.enableDownloadResumption ∧ w.stats.numBlocks = 0 ∧
        env.fcFunnelStatus = .FUNNEL_START then some true
    else w.lastFunnelNotify}

/-- The scope guard of PROCESS_FILE_CMD (lines 374-378), run at every
non-crash exit of the handler: count a failed attempt when the handler is
leaving with an error code set. -/
def fileGuard (w : Worker) : Worker :=
  if w.stats.localErrorCode ≠ .OK then incrFailedAttempts w else w

/-- The writtenGuard of PROCESS_FILE_CMD (lines 424-433), run at exits
between FileWriter construction and its dismissal (line 498): at protocol
version ≥ CHECKPOINT_OFFSET_VERSION record the partially written block in
the checkpoint and count its bytes as effective. -/
def writtenGuardApply (cfg : Config) (env : Env) (totalWritten headerBytes : Int)
    (w : Worker) : Worker :=
  if cfg.checkpointOffsetVersion ≤ w.threadProtocolVersion then
    addEffectiveBytes
      {w with checkpoint :=
        w.checkpoint.setLastBlockDetails env.blockSeqId env.blockOffset totalWritten}
      headerBytes totalWritten
  else w

/-- The header top-up of PROCESS_FILE_CMD (lines 390-394): if the decoded
header length exceeds what is buffered, read more from the socket. -/
def fileCmdNumReadAfterHeader (env : Env) (bufferSize oldOffset numRead : Int) : Option Int :=
  if numRead < env.headerLen then
    readAtLeast env.headerReads (bufferSize - (oldOffset + numRead)) env.headerLen numRead
  else some numRead

/-- The payload read/write loop of PROCESS_FILE_CMD (lines 464-489),
tracking the writer's total, the running CRC and the data bytes counted.
An exhausted oracle list stands for a connection that stalls, which the
surrounding code treats like the read-EOF loop exit. -/
inductive FileLoopOutcome where
  | abortExit (total checksum dataBytes : Int)
  | writeError (code : ErrorCode) (total checksum dataBytes : Int)
  | finished (total checksum dataBytes : Int)
  deriving DecidableEq, Repr

def fileWriteLoop (crcStep : Int → Int → Int) (enableChecksum : Bool) (dataSize : Int) :
    List FileLoopIter → Int → Int → Int → FileLoopOutcome
  | iters, total, checksum, db =>
    if total < dataSize then
      match iters with
      | [] => .finished total checksum db
      | it :: rest =>
        if it.abortCode ≠ .OK then .abortExit total checksum db
        else if it.readResult ≤ 0 then .finished total checksum db
        else
          let db2 := db + it.readResult
          let cks2 := if enableChecksum then crcStep checksum it.readResult else checksum
          if it.writeCode ≠ .OK then .writeError it.writeCode total cks2 db2
          else fileWriteLoop crcStep enableChecksum dataSize rest (total + it.readResult) cks2 db2
    else .finished total checksum db

/-- Leftover-byte management of PROCESS_FILE_CMD (lines 502-521), given
the leftover byte count and the current offset; returns the new
(numRead, off) pair.  Small leftovers sitting in the upper half of the
buffer are moved (memmove) to the buffer start. -/
def fileCmdLeftover (kMaxHeader bufferSize remainingData off : Int) : Int × Int :=
  if 0 < remainingData then
    if remainingData < kMaxHeader ∧ bufferSize / 2 < off then (remainingData, 0)
    else (remainingData, off)
  else (0, 0)

/-- Final block of PROCESS_FILE_CMD (lines 557-565): transfer-log entry,
effective bytes, block counters, and the success transition. -/
def fileCmdFinish (cfg : Config) (env : Env) (w : Worker) (headerBytes : Int) :
    ReceiverState × Worker :=
  let w :=
    if cfg.isLogBasedResumption then
      {w with transferLog := w.transferLog ++ [(env.blockSeqId, env.blockOffset,
                                               env.blockDataSize)]}
    else w
  let w := addEffectiveBytes w headerBytes env.blockDataSize
  let w := {w with stats := {w.stats with numBlocks := w.stats.numBlocks + 1}}
  let w := {w with checkpoint := w.checkpoint.incrNumBlocks}
  (.READ_NEXT_CMD, fileGuard w)

/-- Tail of PROCESS_FILE_CMD after the block payload is fully on disk
(lines 499-565): leftover management, the optional FOOTER verification,
then the finish block.  The writtenGuard is already dismissed here. -/
def fileCmdTail (cfg : Config) (env : Env) (w : Worker) (headerBytes checksum remainingData : Int) :
    ReceiverState × Worker :=
  if remainingData < 0 then (.FAILED, {w with crashed := true})
  else
    let no := fileCmdLeftover cfg.kMaxHeader w.bufferSize remainingData w.off
    let w := {w with numRead := no.1, off := no.2}
    if w.enableChecksum then
      let w := {w with oldOffset := w.off}
      match readAtLeast env.footerReads (w.bufferSize - w.off) cfg.kMinBufLength w.numRead with
      | none => (.FAILED, {w with crashed := true})
      | some numRead =>
        let w := {w with numRead := numRead}
        if numRead < cfg.kMinBufLength then
          (.ACCEPT_WITH_TIMEOUT, fileGuard (setLocalError w .SOCKET_READ_ERROR))
        else
          let w := {w with off := w.off + 1}
          if env.footerCmd ≠ .FOOTER_CMD then
            (.FINISH_WITH_ERROR, fileGuard (setLocalError w .PROTOCOL_ERROR))
          else if ¬ env.decodeFooterOk then
            (.FINISH_WITH_ERROR, fileGuard (setLocalError w .PROTOCOL_ERROR))
          else
            let w := {w with off := w.off + env.decodeFooterAdvance}
            if checksum ≠ env.receivedChecksum then
              (.ACCEPT_WITH_TIMEOUT, fileGuard (setLocalError w .CHECKSUM_MISMATCH))
            else
              let msgLen := w.off - w.oldOffset
              fileCmdFinish cfg env {w with numRead := w.numRead - msgLen} headerBytes
    else
      fileCmdFinish cfg env w headerBytes

/-- Middle of PROCESS_FILE_CMD from FileWriter construction to payload
completion (lines 422-498). -/
def fileCmdBody (cfg : Config) (env : Env) (w : Worker) (headerBytes : Int) :
    ReceiverState × Worker :=
  if env.writerOpen ≠ .OK then
    (.SEND_ABORT_CMD,
      fileGuard (writtenGuardApply cfg env 0 headerBytes (setLocalError w .FILE_WRITE_ERROR)))
  else
    let remainingData := w.numRead + w.oldOffset - w.off
    if remainingData < 0 then (.FAILED, {w with crashed := true})
    else
      let toWrite := if env.blockDataSize ≤ remainingData then env.blockDataSize
                     else remainingData
      let w := addDataBytes w toWrite
      let checksum := if w.enableChecksum then env.crcStep 0 toWrite else 0
      -- throttler->limit(toWrite + headerBytes) blocks but changes no worker state
      if env.firstWriteCode ≠ .OK then
        (.SEND_ABORT_CMD,
          fileGuard (writtenGuardApply cfg env 0 headerBytes
            (setLocalError w env.firstWriteCode)))
      else
        let w := {w with off := w.off + toWrite}
        let remainingData := remainingData - toWrite
        match fileWriteLoop env.crcStep w.enableChecksum env.blockDataSize
            env.fileLoop toWrite checksum 0 with
        | .abortExit total _cks dbAdded =>
          (.FAILED, fileGuard (writtenGuardApply cfg env total headerBytes (addDataBytes w dbAdded)))
        | .writeError code total _cks dbAdded =>
          (.SEND_ABORT_CMD,
            fileGuard (writtenGuardApply cfg env total headerBytes
              (setLocalError (addDataBytes w dbAdded) code)))
        | .finished total cks dbAdded =>
          let w := addDataBytes w dbAdded
          if total ≠ env.blockDataSize then
            (.ACCEPT_WITH_TIMEOUT,
              fileGuard (writtenGuardApply cfg env total headerBytes
                (setLocalError w .SOCKET_READ_ERROR)))
          else
            fileCmdTail cfg env w headerBytes cks remainingData

/-- PROCESS_FILE_CMD state handler (lines 356-566). -/
def processFileCmd (cfg : Config) (env : Env) (w : Worker) : ReceiverState × Worker :=
  let w := fileCmdResumptionHeader cfg env w
  let w := {w with checkpoint := w.checkpoint.resetLastBlockDetails}
  let w := {w with off := w.off + 1}
  match fileCmdNumReadAfterHeader env w.bufferSize w.oldOffset w.numRead with
  | none => (.FAILED, {w with crashed := true})
  | some numRead =>
    let w := {w with numRead := numRead}
    if numRead < env.headerLen then
      (.ACCEPT_WITH_TIMEOUT, fileGuard (setLocalError w .SOCKET_READ_ERROR))
    else
      let w := {w with off := w.off + 2}
      let w := {w with off := w.off + env.decodeHeaderAdvance}
      let headerBytes := w.off - w.oldOffset
      if env.headerLen ≠ headerBytes then (.FAILED, {w with crashed := true})
      else
        let w := addHeaderBytes w headerBytes
        if ¬ env.decodeHeaderOk then
          (.FINISH_WITH_ERROR, fileGuard (setLocalError w .PROTOCOL_ERROR))
        else
          let w := {w with checkpointIndex := w.pendingCheckpointIndex}
          fileCmdBody cfg env w headerBytes

/-- The path condition of PROCESS_FILE_CMD under which the commit
`checkpointIndex_ = pendingCheckpointIndex_` (line 418) is reached: the
full header was read, the WDT_CHECK on the header length passed, and
decodeHeader succeeded. -/
def fileHeaderDecoded (env : Env) (w : Worker) : Bool :=
  match fileCmdNumReadAfterHeader env w.bufferSize w.oldOffset w.numRead with
  | none => false
  | some numRead =>
    ¬ numRead < env.headerLen ∧
    env.headerLen = w.off + 1 + 2 + env.decodeHeaderAdvance - w.oldOffset ∧
    env.decodeHeaderOk

/-- PROCESS_DONE_CMD state handler (lines 568-595). -/
def processDoneCmd (cfg : Config) (env : Env) (w : Worker) : ReceiverState × Worker :=
  if w.numRead ≠ cfg.kMinBufLength then
    (.FINISH_WITH_ERROR, setLocalError w .PROTOCOL_ERROR)
  else
    let w := {w with off := w.off + 1}
    if ¬ env.decodeDoneOk then
      (.FINISH_WITH_ERROR, setLocalError w .PROTOCOL_ERROR)
    else
      let w := {w with off := w.off + env.decodeDoneAdvance}
      let w := {w with stats := {w.stats with numBlocksSend := env.doneNumBlocksSend,
                                              totalSenderBytes := env.doneTotalSenderBytes,
                                              remoteErrorCode := env.doneSenderStatus}}
      (.WAIT_FOR_FINISH_OR_NEW_CHECKPOINT,
        {w with checkpointIndex := w.pendingCheckpointIndex})

/-- PROCESS_SIZE_CMD state handler (lines 597-612). -/
def processSizeCmd (_cfg : Config) (env : Env) (w : Worker) : ReceiverState × Worker :=
  if ¬ env.decodeSizeOk then
    (.FINISH_WITH_ERROR, setLocalError w .PROTOCOL_ERROR)
  else
    let w := {w with off := w.off + env.decodeSizeAdvance}
    let w := {w with stats := {w.stats with totalSenderBytes := env.sizeTotalSenderBytes}}
    let msgLen := w.off - w.oldOffset
    (.READ_NEXT_CMD, {w with numRead := w.numRead - msgLen})

/-- The chunk-packet write loop of the elected worker in SEND_FILE_CHUNKS
(lines 670-684); returns (header bytes counted, entries written).  Each
packet is a 4-byte little-endian size field followed by the encoded
entries; a short packet write breaks out of the loop. -/
def chunkWriteLoop (numParsed : Int) : List ChunkIter → Int → Int → Int × Int
  | iters, numWritten, hdr =>
    if numWritten < numParsed then
      match iters with
      | [] => (hdr, numWritten)
      | it :: rest =>
        let off : Int := 4 + it.encodeAdvance
        let hdr2 := if 0 < it.written then hdr + it.written else hdr
        if it.written ≠ off then (hdr2, numWritten)
        else chunkWriteLoop numParsed rest (numWritten + it.numEntriesEncoded) hdr2
    else (hdr, numWritten)

/-- The FUNNEL_START branch of SEND_FILE_CHUNKS (lines 649-705): the
elected worker emits the CHUNKS envelope, the chunk packets, and reads the
one-byte ACK; any failure abdicates the funnel (notifyFail).  Note the
envelope short write deliberately mirrors the source in setting
SOCKET_READ_ERROR (line 661). -/
def sfcStart (_cfg : Config) (env : Env) (w : Worker) : ReceiverState × Worker :=
  let off : Int := 1 + env.chunksEncodeAdvance
  let w := if 0 < env.envelopeWritten then addHeaderBytes w env.envelopeWritten else w
  if env.envelopeWritten ≠ off then
    (.ACCEPT_WITH_TIMEOUT,
      setLocalError {w with lastFunnelNotify := some false} .SOCKET_READ_ERROR)
  else
    let res := chunkWriteLoop env.numParsedChunksInfo env.chunkIters 0 0
    let w := addHeaderBytes w res.1
    if res.2 ≠ env.numParsedChunksInfo then
      (.ACCEPT_WITH_TIMEOUT,
        setLocalError {w with lastFunnelNotify := some false} .SOCKET_WRITE_ERROR)
    else if env.ackReadResult ≠ 1 then
      (.ACCEPT_WITH_TIMEOUT,
        setLocalError {w with lastFunnelNotify := some false} .SOCKET_READ_ERROR)
    else
      (.READ_NEXT_CMD, {w with lastFunnelNotify := some true})

/-- The funnel poll loop of SEND_FILE_CHUNKS (lines 619-707). -/
def sendFileChunksLoop (cfg : Config) (env : Env) : List SfcIter → Worker →
    ReceiverState × Worker
  | [], w => (.SEND_FILE_CHUNKS, w)
  | it :: rest, w =>
    match it.status with
    | .FUNNEL_END =>
      if it.oneByteWritten ≠ 1 then
        (.ACCEPT_WITH_TIMEOUT, setLocalError w .SOCKET_WRITE_ERROR)
      else (.READ_NEXT_CMD, addHeaderBytes w 1)
    | .FUNNEL_PROGRESS =>
      if it.oneByteWritten ≠ 1 then
        (.ACCEPT_WITH_TIMEOUT, setLocalError w .SOCKET_WRITE_ERROR)
      else sendFileChunksLoop cfg env rest (addHeaderBytes w 1)
    | .FUNNEL_START => sfcStart cfg env w

/-- SEND_FILE_CHUNKS state handler (lines 614-708).  The WDT_CHECK on
senderReadTimeout aborts the process when settings were not received. -/
def sendFileChunks (cfg : Config) (env : Env) (w : Worker) : ReceiverState × Worker :=
  if w.senderReadTimeout ≤ 0 then (.FAILED, {w with crashed := true})
  else sendFileChunksLoop cfg env env.sfcStatuses w

/-- SEND_GLOBAL_CHECKPOINTS state handler (lines 710-733). -/
def sendGlobalCheckpoint (_cfg : Config) (env : Env) (w : Worker) : ReceiverState × Worker :=
  let off : Int := 1 + 2 + env.gcEncodeAdvance
  let w := {w with off := off}
  if env.gcWritten ≠ off then
    (.ACCEPT_WITH_TIMEOUT, setLocalError w .SOCKET_WRITE_ERROR)
  else
    let w := addHeaderBytes w off
    let w := {w with pendingCheckpointIndex :=
                w.checkpointIndex + (w.newCheckpoints.length : Int)}
    (.READ_NEXT_CMD, {w with numRead := 0, off := 0})

/-- SEND_ABORT_CMD state handler (lines 735-753): the abort frame write
result is ignored and the socket is closed unconditionally. -/
def sendAbortCmd (_cfg : Config) (env : Env) (w : Worker) : ReceiverState × Worker :=
  let offset : Int := 1 + env.abortEncodeAdvance
  let w := {w with connClosed := true}
  let w := addHeaderBytes w offset
  if w.stats.localErrorCode = .VERSION_MISMATCH then (.ACCEPT_WITH_TIMEOUT, w)
  else (.FINISH_WITH_ERROR, w)

/-- SEND_DONE_CMD state handler (lines 755-785). -/
def sendDoneCmd (_cfg : Config) (env : Env) (w : Worker) : ReceiverState × Worker :=
  if env.doneWrite ≠ 1 then
    (.ACCEPT_WITH_TIMEOUT, setLocalError {w with doneSendFailure := true} .SOCKET_WRITE_ERROR)
  else
    let w := addHeaderBytes w 1
    if env.doneAckRead ≠ 1 ∨ env.doneAckByte ≠ Cmd.DONE_CMD then
      (.ACCEPT_WITH_TIMEOUT, setLocalError {w with doneSendFailure := true} .SOCKET_READ_ERROR)
    else if env.doneEofRead ≠ 0 then
      (.ACCEPT_WITH_TIMEOUT, setLocalError {w with doneSendFailure := true} .SOCKET_READ_ERROR)
    else
      (.END, {w with connClosed := true})

/-- FINISH_WITH_ERROR state handler (lines 787-800): closeAll, report the
checkpoint to the parent, mark Finished and notify (controller and parent
effects). -/
def finishWithError (_cfg : Config) (_env : Env) (w : Worker) : ReceiverState × Worker :=
  if w.stats.localErrorCode = .OK then (.FAILED, {w with crashed := true})
  else (.END, {w with connClosed := true})

/-- checkForFinishOrNewCheckpoints (lines 802-815), with the parent's
answer to getNewCheckpoints(checkpointIndex_) and the controller's
hasThreads(RUNNING) answer as inputs. -/
def checkForFinishOrNewCheckpoints (cps : List Checkpoint) (hasRunning : Bool) (w : Worker) :
    ReceiverState × Worker :=
  if cps ≠ [] then (.SEND_GLOBAL_CHECKPOINTS, {w with newCheckpoints := cps})
  else if ¬ hasRunning then (.SEND_DONE_CMD, w)
  else (.WAIT_FOR_FINISH_OR_NEW_CHECKPOINT, w)

/-- The wait loop of WAIT_FOR_FINISH_OR_NEW_CHECKPOINT (lines 824-851);
an exhausted oracle list leaves the worker still waiting in the same
state. -/
def waitLoop (cfg : Config) : List WaitIter → Worker → ReceiverState × Worker
  | [], w => (.WAIT_FOR_FINISH_OR_NEW_CHECKPOINT, w)
  | it :: rest, w =>
    if w.senderReadTimeout ≤ 0 then (.FAILED, {w with crashed := true})
    else
      let r1 := checkForFinishOrNewCheckpoints it.newCps1 it.hasRunning1 w
      if r1.1 ≠ .WAIT_FOR_FINISH_OR_NEW_CHECKPOINT then r1
      else
        let r2 := checkForFinishOrNewCheckpoints it.newCps2 it.hasRunning2 r1.2
        if r2.1 ≠ .WAIT_FOR_FINISH_OR_NEW_CHECKPOINT then r2
        else if it.waitWritten ≠ 1 then
          (.ACCEPT_WITH_TIMEOUT, setLocalError r2.2 .SOCKET_WRITE_ERROR)
        else waitLoop cfg rest (addHeaderBytes r2.2 1)

/-- WAIT_FOR_FINISH_OR_NEW_CHECKPOINT state handler (lines 817-852). -/
def waitForFinishOrNewCheckpoint (cfg : Config) (env : Env) (w : Worker) :
    ReceiverState × Worker :=
  if w.stats.localErrorCode ≠ .OK then (.FAILED, {w with crashed := true})
  else waitLoop cfg env.wfIters w

/-- One transition of the receiver worker state machine: the dispatch
table stateMap_ (lines 81-90) applied by the loop of start()
(lines 870-886).  END and FAILED are terminal and stutter. -/
def step (cfg : Config) (env : Env) : ReceiverState → Worker → ReceiverState × Worker
  | .LISTEN, w => listen cfg env w
  | .ACCEPT_FIRST_CONNECTION, w => acceptFirstConnection cfg env w
  | .ACCEPT_WITH_TIMEOUT, w => acceptWithTimeout cfg env w
  | .SEND_LOCAL_CHECKPOINT, w => sendLocalCheckpoint cfg env w
  | .READ_NEXT_CMD, w => readNextCmd cfg env w
  | .PROCESS_FILE_CMD, w => processFileCmd cfg env w
  | .PROCESS_SETTINGS_CMD, w => processSettingsCmd cfg env w
  | .PROCESS_DONE_CMD, w => processDoneCmd cfg env w
  | .PROCESS_SIZE_CMD, w => processSizeCmd cfg env w
  | .SEND_FILE_CHUNKS, w => sendFileChunks cfg env w
  | .SEND_GLOBAL_CHECKPOINTS, w => sendGlobalCheckpoint cfg env w
  | .SEND_DONE_CMD, w => sendDoneCmd cfg env w
  | .SEND_ABORT_CMD, w => sendAbortCmd cfg env w
  | .WAIT_FOR_FINISH_OR_NEW_CHECKPOINT, w => waitForFinishOrNewCheckpoint cfg env w
  | .FINISH_WITH_ERROR, w => finishWithError cfg env w
  | .END, w => (.END, w)
  | .FAILED, w => (.FAILED, w)

/-- A trace `pos` of positive reads after which the loop of readAtLeast is
still below `atLeast`: every read happens while the accumulated count is
below the threshold and the threshold is still not reached at the end. -/
def loopRunsShort (atLeast : Int) : List Int → Int → Bool
  | [], len => decide (len < atLeast)
  | n :: rest, len => decide (len < atLeast) && decide (0 < n) && loopRunsShort atLeast rest (len + n)

/-- A trace `pos` of positive reads that the loop of readAtLeast consumes
entirely, reaching the threshold exactly at its end. -/
def loopConsumes (atLeast : Int) : List Int → Int → Bool
  | [], len => decide (atLeast ≤ len)
  | n :: rest, len => decide (len < atLeast) && decide (0 < n) && loopConsumes atLeast rest (len + n)

theorem readAtLeastLoop_eof (atLeast : Int) (pos : List Int) :
    ∀ (len : Int) (rest : List Int), loopRunsShort atLeast pos len = true →
      readAtLeastLoop atLeast (pos ++ 0 :: rest) len = len + pos.sum := by
  induction pos with
  | nil =>
    intro len rest h
    simp only [loopRunsShort, decide_eq_true_eq] at h
    simp [readAtLeastLoop, h]
  | cons n p ih =>
    intro len rest h
    simp only [loopRunsShort, Bool.and_eq_true, decide_eq_true_eq] at h
    obtain ⟨⟨h1, h2⟩, h3⟩ := h
    rw [List.cons_append, readAtLeastLoop]
    simp only [if_pos h1]
    rw [if_neg (by omega), if_neg (by omega), ih (len + n) rest h3]
    simp [List.sum_cons]
    ring

theorem readAtLeastLoop_error (atLeast : Int) (pos : List Int) :
    ∀ (len e : Int) (rest : List Int), loopRunsShort atLeast pos len = true → e < 0 →
      readAtLeastLoop atLeast (pos ++ e :: rest) len =
        (if len + pos.sum = 0 then e else len + pos.sum) := by
  induction pos with
  | nil =>
    intro len e rest h he
    simp only [loopRunsShort, decide_eq_true_eq] at h
    simp [readAtLeastLoop, h, he]
  | cons n p ih =>
    intro len e rest h he
    simp only [loopRunsShort, Bool.and_eq_true, decide_eq_true_eq] at h
    obtain ⟨⟨h1, h2⟩, h3⟩ := h
    rw [List.cons_append, readAtLeastLoop]
    simp only [if_pos h1]
    rw [if_neg (by omega), if_neg (by omega), ih (len + n) e rest h3 he]
    simp [List.sum_cons]
    rw [show len + (n + p.sum) = len + n + p.sum by ring]

theorem readAtLeastLoop_success (atLeast : Int) (pos : List Int) :
    ∀ (len : Int) (rest : List Int), loopConsumes atLeast pos len = true →
      readAtLeastLoop atLeast (pos ++ rest) len = len + pos.sum ∧
      atLeast ≤ len + pos.sum := by
  induction pos with
  | nil =>
    intro len rest h
    simp only [loopConsumes, decide_eq_true_eq] at h
    refine ⟨?_, by simpa using h⟩
    rw [List.nil_append, readAtLeastLoop.eq_def]
    simp [show ¬ len < atLeast by omega]
  | cons n p ih =>
    intro len rest h
    simp only [loopConsumes, Bool.and_eq_true, decide_eq_true_eq] at h
    obtain ⟨⟨h1, h2⟩, h3⟩ := h
    have := ih (len + n) rest h3
    rw [List.cons_append, readAtLeastLoop]
    simp only [if_pos h1]
    rw [if_neg (by omega), if_neg (by omega)]
    constructor
    · rw [this.1]; simp [List.sum_cons]; ring
    · have := this.2; simp [List.sum_cons]; omega

/-- C5 counterexample: with max = 300, atLeast = 256, already = -1 the
claimed preconditions (atLeast > 0, atLeast ≤ max, already ≤ max) all
hold and a single 300-byte read is available, yet readAtLeast aborts the
whole process on CHECK_GE(len, 0) (modelled as `none`) instead of issuing
reads and returning the accumulated total. -/
theorem c5_readAtLeast_counterexample :
    (0 : Int) < 256 ∧ (256 : Int) ≤ 300 ∧ (-1 : Int) ≤ 300 ∧
    readAtLeast [300] 300 256 (-1) = none := by decide

/-- C5 (amended: additionally requires `0 ≤ already`, forced by the glog
CHECK_GE(len, 0), which aborts the process on a negative accumulated
count).  readAtLeast issues reads until the accumulated count reaches
atLeast or a read returns 0 (EOF) or a negative error value; on EOF it
returns the bytes accumulated so far; on a read error it returns the
negative error value if no bytes have been accumulated and otherwise the
accumulated bytes; on success it returns the total bytes present, which
is ≥ atLeast. -/
theorem c5_readAtLeast_spec (max atLeast already : Int)
    (hpos : 0 < atLeast) (hle : atLeast ≤ max) (halready : 0 ≤ already)
    (_hmax : already ≤ max) :
    (∀ reads, readAtLeast reads max atLeast already =
        some (readAtLeastLoop atLeast reads already)) ∧
    (∀ pos rest, loopRunsShort atLeast pos already = true →
        readAtLeastLoop atLeast (pos ++ 0 :: rest) already = already + pos.sum) ∧
    (∀ pos e rest, loopRunsShort atLeast pos already = true → e < 0 →
        readAtLeastLoop atLeast (pos ++ e :: rest) already =
          (if already + pos.sum = 0 then e else already + pos.sum)) ∧
    (∀ pos rest, loopConsumes atLeast pos already = true →
        readAtLeastLoop atLeast (pos ++ rest) already = already + pos.sum ∧
        atLeast ≤ already + pos.sum) := by
  refine ⟨fun reads => ?_, fun pos rest h => readAtLeastLoop_eof atLeast pos already rest h,
    fun pos e rest h he => readAtLeastLoop_error atLeast pos already e rest h he,
    fun pos rest h => readAtLeastLoop_success atLeast pos already rest h⟩
  unfold readAtLeast
  rw [if_pos ⟨halready, hpos, hle⟩]

/-- Witness for C5 at a concrete input: two stitched short reads of 100
and 200 bytes starting from 0 accumulated satisfy the success case. -/
theorem c5_readAtLeast_spec_witness :
    readAtLeast [100, 200] 300 256 0 = some 300 := by
  have h := c5_readAtLeast_spec 300 256 0 (by norm_num) (by norm_num) le_rfl (by norm_num)
  rw [h.1 [100, 200]]
  decide

/-- A concrete configuration used by the witness instances (the constants
match wdt's Protocol.h values; the helper functions are arbitrary). -/
def cfg0 : Config where
  transferId := "T"
  kMinBufLength := 256
  kMaxHeader := 512
  checkpointOffsetVersion := 21
  maxAcceptRetries := 3
  enableDownloadResumption := false
  isLogBasedResumption := false
  getMaxLocalCheckpointLength := fun _ => 41
  negotiateProtocol := fun s r => if s < r then s else r

/-- A concrete worker used by the witness instances. -/
def w0 : Worker where
  port := 22356
  threadProtocolVersion := 22
  bufferSize := 1024
  checkpoint := { port := 22356 }

/-- C7: PROCESS_DONE_CMD first validates numRead = kMinBufLength; on any
buffer state with a dispatched DONE magic but numRead ≠ kMinBufLength
(e.g. DONE pipelined behind another command) it sets ProtocolError and
goes to FINISH_WITH_ERROR without decoding the done payload (the result
does not depend on any decode oracle). -/
theorem c7_processDoneCmd_pipelined (cfg : Config) (env : Env) (w : Worker)
    (h : w.numRead ≠ cfg.kMinBufLength) :
    processDoneCmd cfg env w = (.FINISH_WITH_ERROR, setLocalError w .PROTOCOL_ERROR) ∧
    ∀ env', processDoneCmd cfg env w = processDoneCmd cfg env' w := by
  unfold processDoneCmd
  simp [h]

/-- Witness for C7: a worker with 257 buffered bytes (a DONE pipelined
after another command) fails with ProtocolError. -/
theorem c7_processDoneCmd_pipelined_witness :
    processDoneCmd cfg0 {} {w0 with numRead := 257} =
      (.FINISH_WITH_ERROR, setLocalError {w0 with numRead := 257} .PROTOCOL_ERROR) :=
  (c7_processDoneCmd_pipelined cfg0 {} {w0 with numRead := 257} (by decide)).1

/-- C2: any failure among the three steps of SEND_DONE_CMD (DONE write,
one-byte DONE ack read, EOF read) sets the sticky doneSendFailure flag,
records an error and goes to ACCEPT_WITH_TIMEOUT; full success closes the
socket and goes to END.  With the flag set, the next successful accept in
ACCEPT_WITH_TIMEOUT goes directly to SEND_LOCAL_CHECKPOINT, and
SEND_LOCAL_CHECKPOINT then sends the sentinel checkpoint with
numBlocks = -1 and, on a full write, transitions to SEND_DONE_CMD. -/
theorem c2_doneSendFailure_protocol (cfg : Config) (env : Env) (w : Worker) :
    ((env.doneWrite ≠ 1 →
        sendDoneCmd cfg env w =
          (.ACCEPT_WITH_TIMEOUT,
            setLocalError {w with doneSendFailure := true} .SOCKET_WRITE_ERROR)) ∧
     (env.doneWrite = 1 → env.doneAckRead ≠ 1 ∨ env.doneAckByte ≠ Cmd.DONE_CMD →
        sendDoneCmd cfg env w =
          (.ACCEPT_WITH_TIMEOUT,
            setLocalError {(addHeaderBytes w 1) with doneSendFailure := true}
              .SOCKET_READ_ERROR)) ∧
     (env.doneWrite = 1 → env.doneAckRead = 1 → env.doneAckByte = Cmd.DONE_CMD →
      env.doneEofRead ≠ 0 →
        sendDoneCmd cfg env w =
          (.ACCEPT_WITH_TIMEOUT,
            setLocalError {(addHeaderBytes w 1) with doneSendFailure := true}
              .SOCKET_READ_ERROR)) ∧
     (env.doneWrite = 1 → env.doneAckRead = 1 → env.doneAckByte = Cmd.DONE_CMD →
      env.doneEofRead = 0 →
        sendDoneCmd cfg env w = (.END, {(addHeaderBytes w 1) with connClosed := true}))) ∧
    (w.doneSendFailure = true → env.socketNonRetryableErr = .OK → env.acceptResult = .OK →
       acceptWithTimeout cfg env w =
         (.SEND_LOCAL_CHECKPOINT,
           {w with connClosed := false, curConnectionVerified := false})) ∧
    (w.doneSendFailure = true →
       (sendLocalCheckpoint cfg env w).2.sentLocalCheckpoints =
           [{ port := w.port, numBlocks := -1 : Checkpoint }] ∧
       (env.localCheckpointWritten = cfg.getMaxLocalCheckpointLength w.threadProtocolVersion →
         (sendLocalCheckpoint cfg env w).1 = .SEND_DONE_CMD)) := by
  refine ⟨⟨?_, ?_, ?_, ?_⟩, ?_, ?_⟩
  · intro h1
    unfold sendDoneCmd; simp [h1]
  · intro h1 h2
    unfold sendDoneCmd; simp [h1, h2]
  · intro h1 h2 h3 h4
    unfold sendDoneCmd; simp [h1, h2, h3, h4]
  · intro h1 h2 h3 h4
    unfold sendDoneCmd; simp [h1, h2, h3, h4]
  · intro h1 h2 h3
    unfold acceptWithTimeout; simp [h1, h2, h3]
  · intro h1
    unfold sendLocalCheckpoint
    constructor
    · simp [h1, setLocalError, addHeaderBytes]
      split <;> simp
    · intro h2
      simp [h1, h2, setLocalError, addHeaderBytes]

/-- Witness for C2: a worker whose DONE ack read returns 0 sets the flag
and reconnects; with the flag set the next accept goes to
SEND_LOCAL_CHECKPOINT, which sends the -1 sentinel. -/
theorem c2_doneSendFailure_protocol_witness :
    sendDoneCmd cfg0 { doneAckRead := 0 } w0 =
      (.ACCEPT_WITH_TIMEOUT,
        setLocalError {(addHeaderBytes w0 1) with doneSendFailure := true}
          .SOCKET_READ_ERROR) ∧
    acceptWithTimeout cfg0 {} {w0 with doneSendFailure := true} =
      (.SEND_LOCAL_CHECKPOINT,
        {w0 with doneSendFailure := true, connClosed := false,
                 curConnectionVerified := false}) ∧
    (sendLocalCheckpoint cfg0 { localCheckpointWritten := 41 }
        {w0 with doneSendFailure := true}).2.sentLocalCheckpoints =
      [{ port := 22356, numBlocks := -1 : Checkpoint }] ∧
    (sendLocalCheckpoint cfg0 { localCheckpointWritten := 41 }
        {w0 with doneSendFailure := true}).1 = .SEND_DONE_CMD := by
  have h1 := c2_doneSendFailure_protocol cfg0 { doneAckRead := 0 } w0
  have h2 := c2_doneSendFailure_protocol cfg0 {} {w0 with doneSendFailure := true}
  have h3 := c2_doneSendFailure_protocol cfg0 { localCheckpointWritten := 41 }
      {w0 with doneSendFailure := true}
  refine ⟨h1.1.2.1 rfl (by decide), h2.2.1 rfl rfl rfl, ?_, (h3.2.2 rfl).2 (by decide)⟩
  have := (h3.2.2 rfl).1
  simpa using this

/-- settingsAfterVersion never changes the (already negotiated) protocol
version. -/
theorem settingsAfterVersion_version (cfg : Config) (env : Env) (w : Worker) :
    (settingsAfterVersion cfg env w).2.threadProtocolVersion = w.threadProtocolVersion := by
  simp only [settingsAfterVersion, setLocalError]
  split_ifs <;> rfl

/-- C4: in PROCESS_SETTINGS_CMD, a sender version different from the
worker's triggers negotiation; a result of 0 yields VersionIncompatible
and SEND_ABORT_CMD; otherwise the negotiated version is adopted, and if
it still differs from the sender's the error becomes VersionMismatch and
the state SEND_ABORT_CMD.  SEND_ABORT_CMD always closes the socket (the
abort write result is ignored) and returns ACCEPT_WITH_TIMEOUT exactly
when the local error is VersionMismatch, else FINISH_WITH_ERROR. -/
theorem c4_version_negotiation (cfg : Config) (env : Env) (w : Worker) :
    ((env.decodeVersionOk = true →
      env.senderProtocolVersion ≠ w.threadProtocolVersion →
        (cfg.negotiateProtocol env.senderProtocolVersion w.threadProtocolVersion = 0 →
          processSettingsCmd cfg env w =
            (.SEND_ABORT_CMD,
              setLocalError {w with off := w.off + env.decodeVersionAdvance}
                .VERSION_INCOMPATIBLE)) ∧
        (cfg.negotiateProtocol env.senderProtocolVersion w.threadProtocolVersion ≠ 0 →
          (processSettingsCmd cfg env w).2.threadProtocolVersion =
            cfg.negotiateProtocol env.senderProtocolVersion w.threadProtocolVersion ∧
          (cfg.negotiateProtocol env.senderProtocolVersion w.threadProtocolVersion ≠
              env.senderProtocolVersion →
            processSettingsCmd cfg env w =
              (.SEND_ABORT_CMD,
                setLocalError
                  {w with off := w.off + env.decodeVersionAdvance,
                          threadProtocolVersion :=
                            cfg.negotiateProtocol env.senderProtocolVersion
                              w.threadProtocolVersion}
                  .VERSION_MISMATCH))))) ∧
    ((sendAbortCmd cfg env w).2.connClosed = true ∧
     (∀ n, sendAbortCmd cfg {env with abortWritten := n} w = sendAbortCmd cfg env w) ∧
     ((sendAbortCmd cfg env w).1 = .ACCEPT_WITH_TIMEOUT ↔
        w.stats.localErrorCode = .VERSION_MISMATCH) ∧
     (w.stats.localErrorCode ≠ .VERSION_MISMATCH →
        (sendAbortCmd cfg env w).1 = .FINISH_WITH_ERROR)) := by
  constructor
  · intro hdec hver
    refine ⟨fun hneg => ?_, fun hneg => ⟨?_, fun hstill => ?_⟩⟩
    · simp only [processSettingsCmd]
      rw [if_neg (by simp [hdec]), if_pos hver, if_pos hneg]
    · simp only [processSettingsCmd]
      rw [if_neg (by simp [hdec]), if_pos hver, if_neg hneg]
      split_ifs with h
      · rfl
      · rw [settingsAfterVersion_version]
    · simp only [processSettingsCmd]
      rw [if_neg (by simp [hdec]), if_pos hver, if_neg hneg, if_pos hstill]
  · refine ⟨?_, fun n => rfl, ?_, ?_⟩
    · simp only [sendAbortCmd, addHeaderBytes]
      split_ifs <;> rfl
    · simp only [sendAbortCmd, addHeaderBytes]
      split_ifs with h <;> simp [h]
    · intro h
      simp only [sendAbortCmd, addHeaderBytes]
      split_ifs with h2
      · exact absurd h2 h
      · rfl

/-- Witness for C4: sender version 23 against worker version 22 with a
min-negotiating table adopts 22 and aborts with VersionMismatch; a worker
holding a VersionMismatch error re-accepts after SEND_ABORT_CMD. -/
theorem c4_version_negotiation_witness :
    processSettingsCmd cfg0 { senderProtocolVersion := 23 } w0 =
      (.SEND_ABORT_CMD,
        setLocalError {w0 with off := w0.off + 0, threadProtocolVersion := 22}
          .VERSION_MISMATCH) ∧
    (sendAbortCmd cfg0 {} (setLocalError w0 .VERSION_MISMATCH)).1 = .ACCEPT_WITH_TIMEOUT := by
  have h1 := c4_version_negotiation cfg0 { senderProtocolVersion := 23 } w0
  have h2 := c4_version_negotiation cfg0 {} (setLocalError w0 .VERSION_MISMATCH)
  refine ⟨((h1.1 rfl (by decide)).2 (by decide)).2 (by decide), ?_⟩
  exact h2.2.2.2.1.mpr (by decide)

/-- fileCmdFinish leaves the buffer cursors untouched. -/
theorem fileCmdFinish_cursors (cfg : Config) (env : Env) (w : Worker) (hb : Int) :
    (fileCmdFinish cfg env w hb).2.numRead = w.numRead ∧
    (fileCmdFinish cfg env w hb).2.off = w.off := by
  simp only [fileCmdFinish, fileGuard, incrFailedAttempts, addEffectiveBytes,
    Checkpoint.incrNumBlocks]
  split_ifs <;> exact ⟨rfl, rfl⟩

/-- C6: leftover management after a completed block in PROCESS_FILE_CMD.
A positive leftover smaller than kMaxHeader sitting past the middle of
the buffer is moved (memmove) to the start, so off becomes 0; a positive
leftover that is ≥ kMaxHeader or sits in the first half of the buffer
stays in place with off unchanged (numRead becomes the leftover size in
both cases); no leftover resets both cursors to 0.  The block-completion
tail of PROCESS_FILE_CMD (fileCmdTail, lines 499-565) applies exactly
this on the no-checksum path. -/
theorem c6_leftover_management (kMaxHeader bufferSize remainingData off : Int) :
    (0 < remainingData → remainingData < kMaxHeader → bufferSize / 2 < off →
       fileCmdLeftover kMaxHeader bufferSize remainingData off = (remainingData, 0)) ∧
    (0 < remainingData → kMaxHeader ≤ remainingData ∨ off ≤ bufferSize / 2 →
       fileCmdLeftover kMaxHeader bufferSize remainingData off = (remainingData, off)) ∧
    (remainingData = 0 →
       fileCmdLeftover kMaxHeader bufferSize remainingData off = (0, 0)) ∧
    (∀ (cfg : Config) (env : Env) (w : Worker) (hb cks : Int),
       0 ≤ remainingData → w.enableChecksum = false →
       (fileCmdTail cfg env w hb cks remainingData).2.numRead =
           (fileCmdLeftover cfg.kMaxHeader w.bufferSize remainingData w.off).1 ∧
       (fileCmdTail cfg env w hb cks remainingData).2.off =
           (fileCmdLeftover cfg.kMaxHeader w.bufferSize remainingData w.off).2) := by
  refine ⟨fun h1 h2 h3 => ?_, fun h1 h2 => ?_, fun h1 => ?_, ?_⟩
  · unfold fileCmdLeftover
    rw [if_pos h1, if_pos ⟨h2, h3⟩]
  · unfold fileCmdLeftover
    rw [if_pos h1, if_neg (by omega)]
  · unfold fileCmdLeftover
    rw [if_neg (by omega)]
  · intro cfg env w hb cks hrd hcks
    unfold fileCmdTail
    rw [if_neg (by omega)]
    simp only [hcks, Bool.false_eq_true, if_false]
    exact fileCmdFinish_cursors cfg env _ hb

/-- Witness for C6: leftover of 4 bytes at offset 600 of a 1024-byte
buffer (kMaxHeader = 512) is copied down. -/
theorem c6_leftover_management_witness :
    fileCmdLeftover 512 1024 4 600 = (4, 0) ∧
    fileCmdLeftover 512 1024 4 100 = (4, 100) ∧
    fileCmdLeftover 512 1024 0 600 = (0, 0) := by
  have h := c6_leftover_management 512 1024 4 600
  have h2 := c6_leftover_management 512 1024 4 100
  have h3 := c6_leftover_management 512 1024 0 600
  exact ⟨h.1 (by norm_num) (by norm_num) (by norm_num),
         h2.2.1 (by norm_num) (Or.inr (by norm_num)), h3.2.2.1 rfl⟩

/-- C8: in SEND_FILE_CHUNKS the elected (funnel Start) worker that
suffers a short write of the CHUNKS envelope sets SocketReadError (not
SocketWriteError), abdicates the funnel (notifyFail, returning it to
Start) and goes to ACCEPT_WITH_TIMEOUT; a short write of a subsequent
chunk packet stops the packet loop short of the entry count, which
instead yields SocketWriteError (again with notifyFail and
ACCEPT_WITH_TIMEOUT). -/
theorem c8_sendFileChunks_errors (cfg : Config) (env : Env) (w : Worker) :
    (∀ it rest, env.sfcStatuses = it :: rest → it.status = .FUNNEL_START →
       0 < w.senderReadTimeout →
       sendFileChunks cfg env w = sfcStart cfg env w) ∧
    (env.envelopeWritten ≠ 1 + env.chunksEncodeAdvance →
       (sfcStart cfg env w).1 = .ACCEPT_WITH_TIMEOUT ∧
       (sfcStart cfg env w).2.stats.localErrorCode = .SOCKET_READ_ERROR ∧
       (sfcStart cfg env w).2.lastFunnelNotify = some false) ∧
    (∀ (it : ChunkIter) iters numWritten hdr, numWritten < env.numParsedChunksInfo →
       it.written ≠ 4 + it.encodeAdvance →
       chunkWriteLoop env.numParsedChunksInfo (it :: iters) numWritten hdr =
         ((if 0 < it.written then hdr + it.written else hdr), numWritten)) ∧
    (env.envelopeWritten = 1 + env.chunksEncodeAdvance →
       (chunkWriteLoop env.numParsedChunksInfo env.chunkIters 0 0).2 ≠
           env.numParsedChunksInfo →
       (sfcStart cfg env w).1 = .ACCEPT_WITH_TIMEOUT ∧
       (sfcStart cfg env w).2.stats.localErrorCode = .SOCKET_WRITE_ERROR ∧
       (sfcStart cfg env w).2.lastFunnelNotify = some false) := by
  refine ⟨fun it rest hl hstat ht => ?_, fun h => ?_, fun it iters numWritten hdr h1 h2 => ?_,
    fun h1 h2 => ?_⟩
  · simp only [sendFileChunks]
    rw [if_neg (by omega), hl]
    simp only [sendFileChunksLoop, hstat]
  · simp only [sfcStart]
    rw [if_pos h]
    exact ⟨rfl, rfl, rfl⟩
  · simp only [chunkWriteLoop]
    rw [if_pos h1, if_pos h2]
  · simp only [sfcStart]
    rw [if_neg (by simpa using h1), if_pos h2]
    exact ⟨rfl, rfl, rfl⟩

/-- Witness for C8: an elected worker whose envelope write returns 0
bytes gets SocketReadError; one whose only packet write is short of the
14-byte packet gets SocketWriteError. -/
theorem c8_sendFileChunks_errors_witness :
    sendFileChunks cfg0 { sfcStatuses := [{ status := .FUNNEL_START }] }
        {w0 with senderReadTimeout := 5000} =
      sfcStart cfg0 { sfcStatuses := [{ status := .FUNNEL_START }] }
        {w0 with senderReadTimeout := 5000} ∧
    (sfcStart cfg0 { sfcStatuses := [{ status := .FUNNEL_START }] }
        {w0 with senderReadTimeout := 5000}).2.stats.localErrorCode = .SOCKET_READ_ERROR ∧
    (sfcStart cfg0
        { envelopeWritten := 1, numParsedChunksInfo := 1,
          chunkIters := [{ numEntriesEncoded := 1, encodeAdvance := 10, written := 0 }] }
        w0).2.stats.localErrorCode = .SOCKET_WRITE_ERROR := by
  have h1 := c8_sendFileChunks_errors cfg0 { sfcStatuses := [{ status := .FUNNEL_START }] }
      {w0 with senderReadTimeout := 5000}
  have h2 := c8_sendFileChunks_errors cfg0
      { envelopeWritten := 1, numParsedChunksInfo := 1,
        chunkIters := [{ numEntriesEncoded := 1, encodeAdvance := 10, written := 0 }] } w0
  exact ⟨h1.1 _ _ rfl rfl (by decide), (h1.2.1 (by decide)).2.1,
    (h2.2.2.2 (by decide) (by decide)).2.1⟩

/-- LISTEN neither reaches the checkpoint states nor touches the
checkpoint indices. -/
theorem listen_cp (cfg : Config) (env : Env) (w : Worker) :
    ((listen cfg env w).1 ≠ .WAIT_FOR_FINISH_OR_NEW_CHECKPOINT ∧
     (listen cfg env w).1 ≠ .SEND_GLOBAL_CHECKPOINTS) ∧
    (listen cfg env w).2.checkpointIndex = w.checkpointIndex ∧
    (listen cfg env w).2.pendingCheckpointIndex = w.pendingCheckpointIndex := by
  simp only [listen, setLocalError]
  split <;> (try split_ifs) <;> exact ⟨⟨by simp, by simp⟩, rfl, rfl⟩

/-- ACCEPT_FIRST_CONNECTION resets both checkpoint indices to 0 and never
reaches the checkpoint states. -/
theorem acceptFirstConnection_cp (cfg : Config) (env : Env) (w : Worker) :
    ((acceptFirstConnection cfg env w).1 ≠ .WAIT_FOR_FINISH_OR_NEW_CHECKPOINT ∧
     (acceptFirstConnection cfg env w).1 ≠ .SEND_GLOBAL_CHECKPOINTS) ∧
    (acceptFirstConnection cfg env w).2.checkpointIndex = 0 ∧
    (acceptFirstConnection cfg env w).2.pendingCheckpointIndex = 0 := by
  simp only [acceptFirstConnection, resetWorker, setLocalError]
  split <;> exact ⟨⟨by simp, by simp⟩, rfl, rfl⟩

/-- ACCEPT_WITH_TIMEOUT keeps checkpointIndex and either keeps
pendingCheckpointIndex or snapshots it to checkpointIndex. -/
theorem acceptWithTimeout_cp (cfg : Config) (env : Env) (w : Worker) :
    ((acceptWithTimeout cfg env w).1 ≠ .WAIT_FOR_FINISH_OR_NEW_CHECKPOINT ∧
     (acceptWithTimeout cfg env w).1 ≠ .SEND_GLOBAL_CHECKPOINTS) ∧
    (acceptWithTimeout cfg env w).2.checkpointIndex = w.checkpointIndex ∧
    ((acceptWithTimeout cfg env w).2.pendingCheckpointIndex = w.pendingCheckpointIndex ∨
     (acceptWithTimeout cfg env w).2.pendingCheckpointIndex = w.checkpointIndex) := by
  simp only [acceptWithTimeout, setLocalError]
  split_ifs <;> first
    | exact ⟨⟨by simp, by simp⟩, rfl, Or.inl rfl⟩
    | exact ⟨⟨by simp, by simp⟩, rfl, Or.inr rfl⟩

/-- SEND_LOCAL_CHECKPOINT touches neither checkpoint index. -/
theorem sendLocalCheckpoint_cp (cfg : Config) (env : Env) (w : Worker) :
    ((sendLocalCheckpoint cfg env w).1 ≠ .WAIT_FOR_FINISH_OR_NEW_CHECKPOINT ∧
     (sendLocalCheckpoint cfg env w).1 ≠ .SEND_GLOBAL_CHECKPOINTS) ∧
    (sendLocalCheckpoint cfg env w).2.checkpointIndex = w.checkpointIndex ∧
    (sendLocalCheckpoint cfg env w).2.pendingCheckpointIndex = w.pendingCheckpointIndex := by
  simp only [sendLocalCheckpoint, setLocalError, addHeaderBytes]
  split_ifs <;> exact ⟨⟨by simp, by simp⟩, rfl, rfl⟩

/-- READ_NEXT_CMD touches neither checkpoint index. -/
theorem readNextCmd_cp (cfg : Config) (env : Env) (w : Worker) :
    ((readNextCmd cfg env w).1 ≠ .WAIT_FOR_FINISH_OR_NEW_CHECKPOINT ∧
     (readNextCmd cfg env w).1 ≠ .SEND_GLOBAL_CHECKPOINTS) ∧
    (readNextCmd cfg env w).2.checkpointIndex = w.checkpointIndex ∧
    (readNextCmd cfg env w).2.pendingCheckpointIndex = w.pendingCheckpointIndex := by
  simp only [readNextCmd, setLocalError]
  split
  · exact ⟨⟨by simp, by simp⟩, rfl, rfl⟩
  · split_ifs
    · exact ⟨⟨by simp, by simp⟩, rfl, rfl⟩
    · split <;> exact ⟨⟨by simp, by simp⟩, rfl, rfl⟩

/-- PROCESS_SETTINGS_CMD touches neither checkpoint index
(settingsAfterVersion part). -/
theorem settingsAfterVersion_cp (cfg : Config) (env : Env) (w : Worker) :
    ((settingsAfterVersion cfg env w).1 ≠ .WAIT_FOR_FINISH_OR_NEW_CHECKPOINT ∧
     (settingsAfterVersion cfg env w).1 ≠ .SEND_GLOBAL_CHECKPOINTS) ∧
    (settingsAfterVersion cfg env w).2.checkpointIndex = w.checkpointIndex ∧
    (settingsAfterVersion cfg env w).2.pendingCheckpointIndex = w.pendingCheckpointIndex := by
  simp only [settingsAfterVersion, setLocalError]
  split_ifs <;> exact ⟨⟨by simp, by simp⟩, rfl, rfl⟩

/-- PROCESS_SETTINGS_CMD touches neither checkpoint index. -/
theorem processSettingsCmd_cp (cfg : Config) (env : Env) (w : Worker) :
    ((processSettingsCmd cfg env w).1 ≠ .WAIT_FOR_FINISH_OR_NEW_CHECKPOINT ∧
     (processSettingsCmd cfg env w).1 ≠ .SEND_GLOBAL_CHECKPOINTS) ∧
    (processSettingsCmd cfg env w).2.checkpointIndex = w.checkpointIndex ∧
    (processSettingsCmd cfg env w).2.pendingCheckpointIndex = w.pendingCheckpointIndex := by
  simp only [processSettingsCmd, setLocalError]
  split_ifs <;> first
    | exact ⟨⟨by simp, by simp⟩, rfl, rfl⟩
    | exact settingsAfterVersion_cp cfg env _

/-- PROCESS_SIZE_CMD touches neither checkpoint index. -/
theorem processSizeCmd_cp (cfg : Config) (env : Env) (w : Worker) :
    ((processSizeCmd cfg env w).1 ≠ .WAIT_FOR_FINISH_OR_NEW_CHECKPOINT ∧
     (processSizeCmd cfg env w).1 ≠ .SEND_GLOBAL_CHECKPOINTS) ∧
    (processSizeCmd cfg env w).2.checkpointIndex = w.checkpointIndex ∧
    (processSizeCmd cfg env w).2.pendingCheckpointIndex = w.pendingCheckpointIndex := by
  simp only [processSizeCmd, setLocalError]
  split_ifs <;> exact ⟨⟨by simp, by simp⟩, rfl, rfl⟩

/-- PROCESS_DONE_CMD keeps pendingCheckpointIndex, only ever moves
checkpointIndex up to it (on the decode-success path, where it reaches
the WAIT state), and never reaches SEND_GLOBAL_CHECKPOINTS directly. -/
theorem processDoneCmd_cp (cfg : Config) (env : Env) (w : Worker) :
    (processDoneCmd cfg env w).2.pendingCheckpointIndex = w.pendingCheckpointIndex ∧
    ((processDoneCmd cfg env w).2.checkpointIndex = w.checkpointIndex ∨
     (processDoneCmd cfg env w).2.checkpointIndex = w.pendingCheckpointIndex) ∧
    (processDoneCmd cfg env w).1 ≠ .SEND_GLOBAL_CHECKPOINTS ∧
    ((processDoneCmd cfg env w).1 = .WAIT_FOR_FINISH_OR_NEW_CHECKPOINT →
       (processDoneCmd cfg env w).2.checkpointIndex = w.pendingCheckpointIndex) ∧
    (w.numRead = cfg.kMinBufLength → env.decodeDoneOk = true →
       (processDoneCmd cfg env w).2.checkpointIndex = w.pendingCheckpointIndex) := by
  simp only [processDoneCmd, setLocalError]
  split_ifs with h1 h2
  · exact ⟨rfl, Or.inl rfl, by simp, by intro h; exact absurd h (by simp),
      fun ha _ => absurd ha h1⟩
  · exact ⟨rfl, Or.inr rfl, by simp, fun _ => rfl, fun _ _ => rfl⟩
  · exact ⟨rfl, Or.inl rfl, by simp, by intro h; exact absurd h (by simp),
      fun _ hb => absurd hb (by simpa using h2)⟩

/-- The FUNNEL_START branch of SEND_FILE_CHUNKS touches neither
checkpoint index. -/
theorem sfcStart_cp (cfg : Config) (env : Env) (w : Worker) :
    ((sfcStart cfg env w).1 ≠ .WAIT_FOR_FINISH_OR_NEW_CHECKPOINT ∧
     (sfcStart cfg env w).1 ≠ .SEND_GLOBAL_CHECKPOINTS) ∧
    (sfcStart cfg env w).2.checkpointIndex = w.checkpointIndex ∧
    (sfcStart cfg env w).2.pendingCheckpointIndex = w.pendingCheckpointIndex := by
  simp only [sfcStart, setLocalError, addHeaderBytes]
  split_ifs <;> exact ⟨⟨by simp, by simp⟩, rfl, rfl⟩

/-- The funnel poll loop of SEND_FILE_CHUNKS touches neither checkpoint
index. -/
theorem sendFileChunksLoop_cp (cfg : Config) (env : Env) :
    ∀ (l : List SfcIter) (w : Worker),
    ((sendFileChunksLoop cfg env l w).1 ≠ .WAIT_FOR_FINISH_OR_NEW_CHECKPOINT ∧
     (sendFileChunksLoop cfg env l w).1 ≠ .SEND_GLOBAL_CHECKPOINTS) ∧
    (sendFileChunksLoop cfg env l w).2.checkpointIndex = w.checkpointIndex ∧
    (sendFileChunksLoop cfg env l w).2.pendingCheckpointIndex = w.pendingCheckpointIndex := by
  intro l
  induction l with
  | nil =>
    intro w
    simp [sendFileChunksLoop]
  | cons it rest ih =>
    intro w
    cases hs : it.status with
    | FUNNEL_END =>
      simp only [sendFileChunksLoop, hs]
      split_ifs <;> simp [setLocalError, addHeaderBytes]
    | FUNNEL_PROGRESS =>
      simp only [sendFileChunksLoop, hs]
      split_ifs with h
      · simp [setLocalError]
      · exact ih (addHeaderBytes w 1)
    | FUNNEL_START =>
      simp only [sendFileChunksLoop, hs]
      exact sfcStart_cp cfg env w

/-- SEND_FILE_CHUNKS touches neither checkpoint index. -/
theorem sendFileChunks_cp (cfg : Config) (env : Env) (w : Worker) :
    ((sendFileChunks cfg env w).1 ≠ .WAIT_FOR_FINISH_OR_NEW_CHECKPOINT ∧
     (sendFileChunks cfg env w).1 ≠ .SEND_GLOBAL_CHECKPOINTS) ∧
    (sendFileChunks cfg env w).2.checkpointIndex = w.checkpointIndex ∧
    (sendFileChunks cfg env w).2.pendingCheckpointIndex = w.pendingCheckpointIndex := by
  simp only [sendFileChunks]
  split_ifs
  · exact ⟨⟨by simp, by simp⟩, rfl, rfl⟩
  · exact sendFileChunksLoop_cp cfg env env.sfcStatuses w

/-- SEND_GLOBAL_CHECKPOINTS keeps checkpointIndex and either keeps
pendingCheckpointIndex (short write) or sets it to checkpointIndex plus
the number of new checkpoints. -/
theorem sendGlobalCheckpoint_cp (cfg : Config) (env : Env) (w : Worker) :
    ((sendGlobalCheckpoint cfg env w).1 ≠ .WAIT_FOR_FINISH_OR_NEW_CHECKPOINT ∧
     (sendGlobalCheckpoint cfg env w).1 ≠ .SEND_GLOBAL_CHECKPOINTS) ∧
    (sendGlobalCheckpoint cfg env w).2.checkpointIndex = w.checkpointIndex ∧
    ((sendGlobalCheckpoint cfg env w).2.pendingCheckpointIndex = w.pendingCheckpointIndex ∨
     (sendGlobalCheckpoint cfg env w).2.pendingCheckpointIndex =
       w.checkpointIndex + (w.newCheckpoints.length : Int)) := by
  simp only [sendGlobalCheckpoint, setLocalError, addHeaderBytes]
  split_ifs
  · exact ⟨⟨by simp, by simp⟩, rfl, Or.inl rfl⟩
  · exact ⟨⟨by simp, by simp⟩, rfl, Or.inr rfl⟩

/-- SEND_DONE_CMD touches neither checkpoint index. -/
theorem sendDoneCmd_cp (cfg : Config) (env : Env) (w : Worker) :
    ((sendDoneCmd cfg env w).1 ≠ .WAIT_FOR_FINISH_OR_NEW_CHECKPOINT ∧
     (sendDoneCmd cfg env w).1 ≠ .SEND_GLOBAL_CHECKPOINTS) ∧
    (sendDoneCmd cfg env w).2.checkpointIndex = w.checkpointIndex ∧
    (sendDoneCmd cfg env w).2.pendingCheckpointIndex = w.pendingCheckpointIndex := by
  simp only [sendDoneCmd, setLocalError, addHeaderBytes]
  split_ifs <;> exact ⟨⟨by simp, by simp⟩, rfl, rfl⟩

/-- SEND_ABORT_CMD touches neither checkpoint index. -/
theorem sendAbortCmd_cp (cfg : Config) (env : Env) (w : Worker) :
    ((sendAbortCmd cfg env w).1 ≠ .WAIT_FOR_FINISH_OR_NEW_CHECKPOINT ∧
     (sendAbortCmd cfg env w).1 ≠ .SEND_GLOBAL_CHECKPOINTS) ∧
    (sendAbortCmd cfg env w).2.checkpointIndex = w.checkpointIndex ∧
    (sendAbortCmd cfg env w).2.pendingCheckpointIndex = w.pendingCheckpointIndex := by
  simp only [sendAbortCmd, addHeaderBytes]
  split_ifs <;> exact ⟨⟨by simp, by simp⟩, rfl, rfl⟩

/-- FINISH_WITH_ERROR touches neither checkpoint index. -/
theorem finishWithError_cp (cfg : Config) (env : Env) (w : Worker) :
    ((finishWithError cfg env w).1 ≠ .WAIT_FOR_FINISH_OR_NEW_CHECKPOINT ∧
     (finishWithError cfg env w).1 ≠ .SEND_GLOBAL_CHECKPOINTS) ∧
    (finishWithError cfg env w).2.checkpointIndex = w.checkpointIndex ∧
    (finishWithError cfg env w).2.pendingCheckpointIndex = w.pendingCheckpointIndex := by
  simp only [finishWithError]
  split_ifs <;> exact ⟨⟨by simp, by simp⟩, rfl, rfl⟩

/-- checkForFinishOrNewCheckpoints touches neither checkpoint index. -/
theorem checkForFinishOrNewCheckpoints_cp (cps : List Checkpoint) (hasRunning : Bool)
    (w : Worker) :
    (checkForFinishOrNewCheckpoints cps hasRunning w).2.checkpointIndex = w.checkpointIndex ∧
    (checkForFinishOrNewCheckpoints cps hasRunning w).2.pendingCheckpointIndex =
      w.pendingCheckpointIndex := by
  simp only [checkForFinishOrNewCheckpoints]
  split_ifs <;> exact ⟨rfl, rfl⟩

/-- The wait loop of WAIT_FOR_FINISH_OR_NEW_CHECKPOINT touches neither
checkpoint index. -/
theorem waitLoop_cp (cfg : Config) :
    ∀ (l : List WaitIter) (w : Worker),
    (waitLoop cfg l w).2.checkpointIndex = w.checkpointIndex ∧
    (waitLoop cfg l w).2.pendingCheckpointIndex = w.pendingCheckpointIndex := by
  intro l
  induction l with
  | nil => exact fun w => ⟨rfl, rfl⟩
  | cons it rest ih =>
    intro w
    have hc1 := checkForFinishOrNewCheckpoints_cp it.newCps1 it.hasRunning1 w
    have hc2 := checkForFinishOrNewCheckpoints_cp it.newCps2 it.hasRunning2
        (checkForFinishOrNewCheckpoints it.newCps1 it.hasRunning1 w).2
    have hrec := ih (addHeaderBytes
        (checkForFinishOrNewCheckpoints it.newCps2 it.hasRunning2
          (checkForFinishOrNewCheckpoints it.newCps1 it.hasRunning1 w).2).2 1)
    simp only [waitLoop]
    split_ifs with h1 h2 h3 h4
    · exact ⟨rfl, rfl⟩
    · exact hc1
    · exact ⟨hc2.1.trans hc1.1, hc2.2.trans hc1.2⟩
    · exact ⟨hc2.1.trans hc1.1, hc2.2.trans hc1.2⟩
    · exact ⟨hrec.1.trans (hc2.1.trans hc1.1), hrec.2.trans (hc2.2.trans hc1.2)⟩

/-- WAIT_FOR_FINISH_OR_NEW_CHECKPOINT touches neither checkpoint index. -/
theorem waitForFinishOrNewCheckpoint_cp (cfg : Config) (env : Env) (w : Worker) :
    (waitForFinishOrNewCheckpoint cfg env w).2.checkpointIndex = w.checkpointIndex ∧
    (waitForFinishOrNewCheckpoint cfg env w).2.pendingCheckpointIndex =
      w.pendingCheckpointIndex := by
  simp only [waitForFinishOrNewCheckpoint]
  split_ifs
  · exact ⟨rfl, rfl⟩
  · exact waitLoop_cp cfg env.wfIters w

/-- fileGuard does not change the checkpoint indices. -/
theorem fileGuard_checkpointIndex (w : Worker) :
    (fileGuard w).checkpointIndex = w.checkpointIndex := by
  unfold fileGuard incrFailedAttempts
  split_ifs <;> rfl

theorem fileGuard_pending (w : Worker) :
    (fileGuard w).pendingCheckpointIndex = w.pendingCheckpointIndex := by
  unfold fileGuard incrFailedAttempts
  split_ifs <;> rfl

/-- writtenGuardApply does not change the checkpoint indices. -/
theorem writtenGuardApply_checkpointIndex (cfg : Config) (env : Env) (t hb : Int) (w : Worker) :
    (writtenGuardApply cfg env t hb w).checkpointIndex = w.checkpointIndex := by
  unfold writtenGuardApply addEffectiveBytes Checkpoint.setLastBlockDetails
  split_ifs <;> rfl

theorem writtenGuardApply_pending (cfg : Config) (env : Env) (t hb : Int) (w : Worker) :
    (writtenGuardApply cfg env t hb w).pendingCheckpointIndex = w.pendingCheckpointIndex := by
  unfold writtenGuardApply addEffectiveBytes Checkpoint.setLastBlockDetails
  split_ifs <;> rfl

/-- fileCmdFinish always moves to READ_NEXT_CMD and keeps both checkpoint
indices. -/
theorem fileCmdFinish_cp (cfg : Config) (env : Env) (w : Worker) (hb : Int) :
    (fileCmdFinish cfg env w hb).1 = .READ_NEXT_CMD ∧
    (fileCmdFinish cfg env w hb).2.checkpointIndex = w.checkpointIndex ∧
    (fileCmdFinish cfg env w hb).2.pendingCheckpointIndex = w.pendingCheckpointIndex := by
  simp only [fileCmdFinish]
  split_ifs <;>
    exact ⟨by simp, (fileGuard_checkpointIndex _).trans rfl, (fileGuard_pending _).trans rfl⟩

/-- fileCmdTail never reaches the checkpoint states and keeps both
checkpoint indices. -/
theorem fileCmdTail_cp (cfg : Config) (env : Env) (w : Worker) (hb cks rd : Int) :
    ((fileCmdTail cfg env w hb cks rd).1 ≠ .WAIT_FOR_FINISH_OR_NEW_CHECKPOINT ∧
     (fileCmdTail cfg env w hb cks rd).1 ≠ .SEND_GLOBAL_CHECKPOINTS) ∧
    (fileCmdTail cfg env w hb cks rd).2.checkpointIndex = w.checkpointIndex ∧
    (fileCmdTail cfg env w hb cks rd).2.pendingCheckpointIndex = w.pendingCheckpointIndex := by
  have hfin : ∀ w' : Worker, w'.checkpointIndex = w.checkpointIndex →
      w'.pendingCheckpointIndex = w.pendingCheckpointIndex →
      ((fileCmdFinish cfg env w' hb).1 ≠ .WAIT_FOR_FINISH_OR_NEW_CHECKPOINT ∧
       (fileCmdFinish cfg env w' hb).1 ≠ .SEND_GLOBAL_CHECKPOINTS) ∧
      (fileCmdFinish cfg env w' hb).2.checkpointIndex = w.checkpointIndex ∧
      (fileCmdFinish cfg env w' hb).2.pendingCheckpointIndex = w.pendingCheckpointIndex := by
    intro w' h1 h2
    obtain ⟨ha, hb', hc⟩ := fileCmdFinish_cp cfg env w' hb
    exact ⟨⟨by simp [ha], by simp [ha]⟩, hb'.trans h1, hc.trans h2⟩
  simp only [fileCmdTail]
  split
  · exact ⟨⟨by simp, by simp⟩, rfl, rfl⟩
  split
  · split
    · exact ⟨⟨by simp, by simp⟩, rfl, rfl⟩
    · split
      · exact ⟨⟨by simp, by simp⟩, (fileGuard_checkpointIndex _).trans rfl,
          (fileGuard_pending _).trans rfl⟩
      split
      · exact ⟨⟨by simp, by simp⟩, (fileGuard_checkpointIndex _).trans rfl,
          (fileGuard_pending _).trans rfl⟩
      split
      · exact ⟨⟨by simp, by simp⟩, (fileGuard_checkpointIndex _).trans rfl,
          (fileGuard_pending _).trans rfl⟩
      split
      · exact ⟨⟨by simp, by simp⟩, (fileGuard_checkpointIndex _).trans rfl,
          (fileGuard_pending _).trans rfl⟩
      · exact hfin _ rfl rfl
  · exact hfin _ rfl rfl

/-- fileCmdBody never reaches the checkpoint states and keeps both
checkpoint indices. -/
theorem fileCmdBody_cp (cfg : Config) (env : Env) (w : Worker) (hb : Int) :
    ((fileCmdBody cfg env w hb).1 ≠ .WAIT_FOR_FINISH_OR_NEW_CHECKPOINT ∧
     (fileCmdBody cfg env w hb).1 ≠ .SEND_GLOBAL_CHECKPOINTS) ∧
    (fileCmdBody cfg env w hb).2.checkpointIndex = w.checkpointIndex ∧
    (fileCmdBody cfg env w hb).2.pendingCheckpointIndex = w.pendingCheckpointIndex := by
  simp only [fileCmdBody]
  split
  · exact ⟨⟨by simp, by simp⟩,
      (fileGuard_checkpointIndex _).trans ((writtenGuardApply_checkpointIndex _ _ _ _ _).trans rfl),
      (fileGuard_pending _).trans ((writtenGuardApply_pending _ _ _ _ _).trans rfl)⟩
  split
  · exact ⟨⟨by simp, by simp⟩, rfl, rfl⟩
  split
  · exact ⟨⟨by simp, by simp⟩,
      (fileGuard_checkpointIndex _).trans ((writtenGuardApply_checkpointIndex _ _ _ _ _).trans rfl),
      (fileGuard_pending _).trans ((writtenGuardApply_pending _ _ _ _ _).trans rfl)⟩
  split
  · exact ⟨⟨by simp, by simp⟩,
      (fileGuard_checkpointIndex _).trans ((writtenGuardApply_checkpointIndex _ _ _ _ _).trans rfl),
      (fileGuard_pending _).trans ((writtenGuardApply_pending _ _ _ _ _).trans rfl)⟩
  · exact ⟨⟨by simp, by simp⟩,
      (fileGuard_checkpointIndex _).trans ((writtenGuardApply_checkpointIndex _ _ _ _ _).trans rfl),
      (fileGuard_pending _).trans ((writtenGuardApply_pending _ _ _ _ _).trans rfl)⟩
  · split
    · exact ⟨⟨by simp, by simp⟩,
        (fileGuard_checkpointIndex _).trans ((writtenGuardApply_checkpointIndex _ _ _ _ _).trans rfl),
        (fileGuard_pending _).trans ((writtenGuardApply_pending _ _ _ _ _).trans rfl)⟩
    · exact ⟨(fileCmdTail_cp cfg env _ hb _ _).1,
        ((fileCmdTail_cp cfg env _ hb _ _).2.1).trans rfl,
        ((fileCmdTail_cp cfg env _ hb _ _).2.2).trans rfl⟩

/-- PROCESS_FILE_CMD never reaches the checkpoint states, keeps
pendingCheckpointIndex, and only ever moves checkpointIndex up to it; the
commit happens exactly when the block header was successfully decoded. -/
theorem processFileCmd_cp (cfg : Config) (env : Env) (w : Worker) :
    ((processFileCmd cfg env w).1 ≠ .WAIT_FOR_FINISH_OR_NEW_CHECKPOINT ∧
     (processFileCmd cfg env w).1 ≠ .SEND_GLOBAL_CHECKPOINTS) ∧
    (processFileCmd cfg env w).2.pendingCheckpointIndex = w.pendingCheckpointIndex ∧
    ((processFileCmd cfg env w).2.checkpointIndex = w.checkpointIndex ∨
     (processFileCmd cfg env w).2.checkpointIndex = w.pendingCheckpointIndex) ∧
    (fileHeaderDecoded env w = true →
       (processFileCmd cfg env w).2.checkpointIndex = w.pendingCheckpointIndex) := by
  simp only [processFileCmd, fileCmdResumptionHeader, Checkpoint.resetLastBlockDetails,
    fileHeaderDecoded]
  split
  · exact ⟨⟨by simp, by simp⟩, rfl, Or.inl rfl, by simp⟩
  · next nr heq =>
    split
    · -- short header read
      refine ⟨⟨by simp, by simp⟩, (fileGuard_pending _).trans rfl,
        Or.inl ((fileGuard_checkpointIndex _).trans rfl), ?_⟩
      next h1 => simp [h1]
    · next h1 =>
      split
      · -- WDT_CHECK_EQ failure: the process aborts before the commit
        refine ⟨⟨by simp, by simp⟩, rfl, Or.inl rfl, ?_⟩
        next h2 => simp only [decide_eq_true_eq]; intro hcon; exact absurd hcon.2.1 h2
      · next h2 =>
        split
        · -- decodeHeader failed
          refine ⟨⟨by simp, by simp⟩, (fileGuard_pending _).trans rfl,
            Or.inl ((fileGuard_checkpointIndex _).trans rfl), ?_⟩
          next h3 => simp only [decide_eq_true_eq]; intro hcon; exact absurd hcon.2.2 (by simpa using h3)
        · exact ⟨(fileCmdBody_cp cfg env _ _).1,
            ((fileCmdBody_cp cfg env _ _).2.2).trans rfl,
            Or.inr (((fileCmdBody_cp cfg env _ _).2.1).trans rfl),
            fun _ => ((fileCmdBody_cp cfg env _ _).2.1).trans rfl⟩

/-- C1: over every transition of the worker state machine,
pendingCheckpointIndex ≥ checkpointIndex (and both stay non-negative) is
preserved; checkpointIndex is never changed outside PROCESS_FILE_CMD,
PROCESS_DONE_CMD and the full reset of ACCEPT_FIRST_CONNECTION (which
zeroes both indices); inside the two processing states checkpointIndex
only ever moves up to pendingCheckpointIndex, and after a successful
header/done decode the two indices are equal. -/
theorem c1_checkpoint_commit (cfg : Config) (env : Env) (s : ReceiverState) (w : Worker) :
    ((w.checkpointIndex ≤ w.pendingCheckpointIndex →
        (step cfg env s w).2.checkpointIndex ≤ (step cfg env s w).2.pendingCheckpointIndex) ∧
     (0 ≤ w.checkpointIndex → 0 ≤ w.pendingCheckpointIndex →
        0 ≤ (step cfg env s w).2.checkpointIndex ∧
        0 ≤ (step cfg env s w).2.pendingCheckpointIndex)) ∧
    (s ≠ .PROCESS_FILE_CMD → s ≠ .PROCESS_DONE_CMD → s ≠ .ACCEPT_FIRST_CONNECTION →
       (step cfg env s w).2.checkpointIndex = w.checkpointIndex) ∧
    (s = .ACCEPT_FIRST_CONNECTION →
       (step cfg env s w).2.checkpointIndex = 0 ∧
       (step cfg env s w).2.pendingCheckpointIndex = 0) ∧
    ((s = .PROCESS_FILE_CMD ∨ s = .PROCESS_DONE_CMD) →
       ((step cfg env s w).2.checkpointIndex = w.checkpointIndex ∨
        (step cfg env s w).2.checkpointIndex = w.pendingCheckpointIndex) ∧
       (step cfg env s w).2.pendingCheckpointIndex = w.pendingCheckpointIndex) ∧
    (s = .PROCESS_FILE_CMD → fileHeaderDecoded env w = true →
       (step cfg env s w).2.checkpointIndex = (step cfg env s w).2.pendingCheckpointIndex) ∧
    (s = .PROCESS_DONE_CMD → w.numRead = cfg.kMinBufLength → env.decodeDoneOk = true →
       (step cfg env s w).2.checkpointIndex = (step cfg env s w).2.pendingCheckpointIndex) := by
  cases s with
  | LISTEN =>
    obtain ⟨-, hc, hp⟩ := listen_cp cfg env w
    exact ⟨⟨fun hle => by simp only [step]; omega, fun h1 h2 => by simp only [step]; omega⟩,
      fun _ _ _ => hc, fun h => by simp at h, fun h => by rcases h with h | h <;> simp at h,
      fun h => by simp at h, fun h => by simp at h⟩
  | ACCEPT_FIRST_CONNECTION =>
    obtain ⟨-, hc, hp⟩ := acceptFirstConnection_cp cfg env w
    exact ⟨⟨fun hle => by simp only [step]; omega, fun h1 h2 => by simp only [step]; omega⟩,
      fun _ _ h => absurd rfl h, fun _ => ⟨hc, hp⟩,
      fun h => by rcases h with h | h <;> simp at h,
      fun h => by simp at h, fun h => by simp at h⟩
  | ACCEPT_WITH_TIMEOUT =>
    obtain ⟨-, hc, hp⟩ := acceptWithTimeout_cp cfg env w
    exact ⟨⟨fun hle => by simp only [step]; rcases hp with hp | hp <;> omega,
        fun h1 h2 => by simp only [step]; rcases hp with hp | hp <;> omega⟩,
      fun _ _ _ => hc, fun h => by simp at h, fun h => by rcases h with h | h <;> simp at h,
      fun h => by simp at h, fun h => by simp at h⟩
  | SEND_LOCAL_CHECKPOINT =>
    obtain ⟨-, hc, hp⟩ := sendLocalCheckpoint_cp cfg env w
    exact ⟨⟨fun hle => by simp only [step]; omega, fun h1 h2 => by simp only [step]; omega⟩,
      fun _ _ _ => hc, fun h => by simp at h, fun h => by rcases h with h | h <;> simp at h,
      fun h => by simp at h, fun h => by simp at h⟩
  | READ_NEXT_CMD =>
    obtain ⟨-, hc, hp⟩ := readNextCmd_cp cfg env w
    exact ⟨⟨fun hle => by simp only [step]; omega, fun h1 h2 => by simp only [step]; omega⟩,
      fun _ _ _ => hc, fun h => by simp at h, fun h => by rcases h with h | h <;> simp at h,
      fun h => by simp at h, fun h => by simp at h⟩
  | PROCESS_FILE_CMD =>
    obtain ⟨-, hpend, hdisj, hcommit⟩ := processFileCmd_cp cfg env w
    exact ⟨⟨fun hle => by simp only [step]; rcases hdisj with hd | hd <;> omega,
        fun h1 h2 => by simp only [step]; rcases hdisj with hd | hd <;> omega⟩,
      fun h _ _ => absurd rfl h, fun h => by simp at h,
      fun _ => ⟨hdisj, hpend⟩,
      fun _ hdec => (hcommit hdec).trans hpend.symm,
      fun h => by simp at h⟩
  | PROCESS_SETTINGS_CMD =>
    obtain ⟨-, hc, hp⟩ := processSettingsCmd_cp cfg env w
    exact ⟨⟨fun hle => by simp only [step]; omega, fun h1 h2 => by simp only [step]; omega⟩,
      fun _ _ _ => hc, fun h => by simp at h, fun h => by rcases h with h | h <;> simp at h,
      fun h => by simp at h, fun h => by simp at h⟩
  | PROCESS_DONE_CMD =>
    obtain ⟨hpend, hdisj, -, -, hdec⟩ := processDoneCmd_cp cfg env w
    exact ⟨⟨fun hle => by simp only [step]; rcases hdisj with hd | hd <;> omega,
        fun h1 h2 => by simp only [step]; rcases hdisj with hd | hd <;> omega⟩,
      fun _ h _ => absurd rfl h, fun h => by simp at h,
      fun _ => ⟨hdisj, hpend⟩, fun h => by simp at h,
      fun _ h1 h2 => (hdec h1 h2).trans hpend.symm⟩
  | PROCESS_SIZE_CMD =>
    obtain ⟨-, hc, hp⟩ := processSizeCmd_cp cfg env w
    exact ⟨⟨fun hle => by simp only [step]; omega, fun h1 h2 => by simp only [step]; omega⟩,
      fun _ _ _ => hc, fun h => by simp at h, fun h => by rcases h with h | h <;> simp at h,
      fun h => by simp at h, fun h => by simp at h⟩
  | SEND_FILE_CHUNKS =>
    obtain ⟨-, hc, hp⟩ := sendFileChunks_cp cfg env w
    exact ⟨⟨fun hle => by simp only [step]; omega, fun h1 h2 => by simp only [step]; omega⟩,
      fun _ _ _ => hc, fun h => by simp at h, fun h => by rcases h with h | h <;> simp at h,
      fun h => by simp at h, fun h => by simp at h⟩
  | SEND_GLOBAL_CHECKPOINTS =>
    obtain ⟨-, hc, hp⟩ := sendGlobalCheckpoint_cp cfg env w
    have hlen : (0 : Int) ≤ (w.newCheckpoints.length : Int) := Int.natCast_nonneg _
    exact ⟨⟨fun hle => by simp only [step]; rcases hp with hp | hp <;> omega,
        fun h1 h2 => by simp only [step]; rcases hp with hp | hp <;> omega⟩,
      fun _ _ _ => hc, fun h => by simp at h, fun h => by rcases h with h | h <;> simp at h,
      fun h => by simp at h, fun h => by simp at h⟩
  | SEND_DONE_CMD =>
    obtain ⟨-, hc, hp⟩ := sendDoneCmd_cp cfg env w
    exact ⟨⟨fun hle => by simp only [step]; omega, fun h1 h2 => by simp only [step]; omega⟩,
      fun _ _ _ => hc, fun h => by simp at h, fun h => by rcases h with h | h <;> simp at h,
      fun h => by simp at h, fun h => by simp at h⟩
  | SEND_ABORT_CMD =>
    obtain ⟨-, hc, hp⟩ := sendAbortCmd_cp cfg env w
    exact ⟨⟨fun hle => by simp only [step]; omega, fun h1 h2 => by simp only [step]; omega⟩,
      fun _ _ _ => hc, fun h => by simp at h, fun h => by rcases h with h | h <;> simp at h,
      fun h => by simp at h, fun h => by simp at h⟩
  | WAIT_FOR_FINISH_OR_NEW_CHECKPOINT =>
    obtain ⟨hc, hp⟩ := waitForFinishOrNewCheckpoint_cp cfg env w
    exact ⟨⟨fun hle => by simp only [step]; omega, fun h1 h2 => by simp only [step]; omega⟩,
      fun _ _ _ => hc, fun h => by simp at h, fun h => by rcases h with h | h <;> simp at h,
      fun h => by simp at h, fun h => by simp at h⟩
  | FINISH_WITH_ERROR =>
    obtain ⟨-, hc, hp⟩ := finishWithError_cp cfg env w
    exact ⟨⟨fun hle => by simp only [step]; omega, fun h1 h2 => by simp only [step]; omega⟩,
      fun _ _ _ => hc, fun h => by simp at h, fun h => by rcases h with h | h <;> simp at h,
      fun h => by simp at h, fun h => by simp at h⟩
  | END =>
    exact ⟨⟨fun hle => hle, fun h1 h2 => ⟨h1, h2⟩⟩, fun _ _ _ => rfl,
      fun h => by simp at h, fun h => by rcases h with h | h <;> simp at h,
      fun h => by simp at h, fun h => by simp at h⟩
  | FAILED =>
    exact ⟨⟨fun hle => hle, fun h1 h2 => ⟨h1, h2⟩⟩, fun _ _ _ => rfl,
      fun h => by simp at h, fun h => by rcases h with h | h <;> simp at h,
      fun h => by simp at h, fun h => by simp at h⟩

/-- Witness for C1: a PROCESS_DONE_CMD transition on a worker with
checkpointIndex 1 and pendingCheckpointIndex 3 whose done command decodes
commits the pending index. -/
theorem c1_checkpoint_commit_witness :
    (step cfg0 {} .PROCESS_DONE_CMD
        {w0 with numRead := 256, checkpointIndex := 1,
                 pendingCheckpointIndex := 3}).2.checkpointIndex =
      (step cfg0 {} .PROCESS_DONE_CMD
        {w0 with numRead := 256, checkpointIndex := 1,
                 pendingCheckpointIndex := 3}).2.pendingCheckpointIndex := by
  have h := c1_checkpoint_commit cfg0 {} .PROCESS_DONE_CMD
      {w0 with numRead := 256, checkpointIndex := 1, pendingCheckpointIndex := 3}
  exact h.2.2.2.2.2 rfl (by decide) (by decide)

/-- The inductive invariant behind C3: at entry to the WAIT and
SEND_GLOBAL_CHECKPOINTS states, pendingCheckpointIndex equals
checkpointIndex (the previous DONE committed). -/
def gcEntryInv (s : ReceiverState) (w : Worker) : Prop :=
  (s = .WAIT_FOR_FINISH_OR_NEW_CHECKPOINT ∨ s = .SEND_GLOBAL_CHECKPOINTS) →
    w.pendingCheckpointIndex = w.checkpointIndex

/-- C3: every transition preserves the entry invariant of
SEND_GLOBAL_CHECKPOINTS (pending = committed), under which a full write
of the ERR frame advances pendingCheckpointIndex by exactly the number of
new checkpoints and resets both buffer cursors before READ_NEXT_CMD,
while a short write sets SocketWriteError and goes to ACCEPT_WITH_TIMEOUT
with pendingCheckpointIndex unchanged. -/
theorem c3_sendGlobalCheckpoint_commit (cfg : Config) (env : Env) :
    (∀ s w, gcEntryInv s w → gcEntryInv (step cfg env s w).1 (step cfg env s w).2) ∧
    (∀ w : Worker, w.pendingCheckpointIndex = w.checkpointIndex →
      (env.gcWritten = 1 + 2 + env.gcEncodeAdvance →
        (sendGlobalCheckpoint cfg env w).1 = .READ_NEXT_CMD ∧
        (sendGlobalCheckpoint cfg env w).2.pendingCheckpointIndex =
          w.pendingCheckpointIndex + (w.newCheckpoints.length : Int) ∧
        (sendGlobalCheckpoint cfg env w).2.numRead = 0 ∧
        (sendGlobalCheckpoint cfg env w).2.off = 0) ∧
      (env.gcWritten ≠ 1 + 2 + env.gcEncodeAdvance →
        (sendGlobalCheckpoint cfg env w).1 = .ACCEPT_WITH_TIMEOUT ∧
        (sendGlobalCheckpoint cfg env w).2.stats.localErrorCode = .SOCKET_WRITE_ERROR ∧
        (sendGlobalCheckpoint cfg env w).2.pendingCheckpointIndex =
          w.pendingCheckpointIndex)) := by
  constructor
  · intro s w hInv
    cases s with
    | PROCESS_DONE_CMD =>
      obtain ⟨hpend, -, hsg, hwait, -⟩ := processDoneCmd_cp cfg env w
      intro hmem
      rcases hmem with hm | hm
      · exact hpend.trans (hwait hm).symm
      · exact absurd hm hsg
    | WAIT_FOR_FINISH_OR_NEW_CHECKPOINT =>
      obtain ⟨hc, hp⟩ := waitForFinishOrNewCheckpoint_cp cfg env w
      intro _
      exact hp.trans ((hInv (Or.inl rfl)).trans hc.symm)
    | LISTEN =>
      obtain ⟨ha, -, -⟩ := listen_cp cfg env w
      exact fun hmem => hmem.elim (fun hm => absurd hm ha.1) (fun hm => absurd hm ha.2)
    | ACCEPT_FIRST_CONNECTION =>
      obtain ⟨ha, -, -⟩ := acceptFirstConnection_cp cfg env w
      exact fun hmem => hmem.elim (fun hm => absurd hm ha.1) (fun hm => absurd hm ha.2)
    | ACCEPT_WITH_TIMEOUT =>
      obtain ⟨ha, -, -⟩ := acceptWithTimeout_cp cfg env w
      exact fun hmem => hmem.elim (fun hm => absurd hm ha.1) (fun hm => absurd hm ha.2)
    | SEND_LOCAL_CHECKPOINT =>
      obtain ⟨ha, -, -⟩ := sendLocalCheckpoint_cp cfg env w
      exact fun hmem => hmem.elim (fun hm => absurd hm ha.1) (fun hm => absurd hm ha.2)
    | READ_NEXT_CMD =>
      obtain ⟨ha, -, -⟩ := readNextCmd_cp cfg env w
      exact fun hmem => hmem.elim (fun hm => absurd hm ha.1) (fun hm => absurd hm ha.2)
    | PROCESS_FILE_CMD =>
      obtain ⟨ha, -, -, -⟩ := processFileCmd_cp cfg env w
      exact fun hmem => hmem.elim (fun hm => absurd hm ha.1) (fun hm => absurd hm ha.2)
    | PROCESS_SETTINGS_CMD =>
      obtain ⟨ha, -, -⟩ := processSettingsCmd_cp cfg env w
      exact fun hmem => hmem.elim (fun hm => absurd hm ha.1) (fun hm => absurd hm ha.2)
    | PROCESS_SIZE_CMD =>
      obtain ⟨ha, -, -⟩ := processSizeCmd_cp cfg env w
      exact fun hmem => hmem.elim (fun hm => absurd hm ha.1) (fun hm => absurd hm ha.2)
    | SEND_FILE_CHUNKS =>
      obtain ⟨ha, -, -⟩ := sendFileChunks_cp cfg env w
      exact fun hmem => hmem.elim (fun hm => absurd hm ha.1) (fun hm => absurd hm ha.2)
    | SEND_GLOBAL_CHECKPOINTS =>
      obtain ⟨ha, -, -⟩ := sendGlobalCheckpoint_cp cfg env w
      exact fun hmem => hmem.elim (fun hm => absurd hm ha.1) (fun hm => absurd hm ha.2)
    | SEND_DONE_CMD =>
      obtain ⟨ha, -, -⟩ := sendDoneCmd_cp cfg env w
      exact fun hmem => hmem.elim (fun hm => absurd hm ha.1) (fun hm => absurd hm ha.2)
    | SEND_ABORT_CMD =>
      obtain ⟨ha, -, -⟩ := sendAbortCmd_cp cfg env w
      exact fun hmem => hmem.elim (fun hm => absurd hm ha.1) (fun hm => absurd hm ha.2)
    | FINISH_WITH_ERROR =>
      obtain ⟨ha, -, -⟩ := finishWithError_cp cfg env w
      exact fun hmem => hmem.elim (fun hm => absurd hm ha.1) (fun hm => absurd hm ha.2)
    | END => exact fun hmem => by rcases hmem with hm | hm <;> simp [step] at hm
    | FAILED => exact fun hmem => by rcases hmem with hm | hm <;> simp [step] at hm
  · intro w hw
    constructor
    · intro hful
      simp only [sendGlobalCheckpoint, setLocalError, addHeaderBytes]
      rw [if_neg (by simpa using hful)]
      refine ⟨rfl, ?_, rfl, rfl⟩
      show w.checkpointIndex + (w.newCheckpoints.length : Int) =
        w.pendingCheckpointIndex + (w.newCheckpoints.length : Int)
      rw [hw]
    · intro hshort
      simp only [sendGlobalCheckpoint, setLocalError, addHeaderBytes]
      rw [if_pos hshort]
      exact ⟨rfl, rfl, rfl⟩

/-- Witness for C3: a worker with both indices 2 and two new checkpoints
whose ERR frame write fully succeeds ends with pendingCheckpointIndex 4
and cleared cursors. -/
theorem c3_sendGlobalCheckpoint_commit_witness :
    (sendGlobalCheckpoint cfg0 { gcWritten := 3 }
        {w0 with checkpointIndex := 2, pendingCheckpointIndex := 2,
                 newCheckpoints := [{ port := 1 }, { port := 2 }]}).2.pendingCheckpointIndex =
      (2 : Int) + ((2 : Nat) : Int) := by
  have h := (c3_sendGlobalCheckpoint_commit cfg0 { gcWritten := 3 }).2
      {w0 with checkpointIndex := 2, pendingCheckpointIndex := 2,
               newCheckpoints := [{ port := 1 }, { port := 2 }]} rfl
  exact ((h.1 (by decide)).2.1).trans (by decide)

/-- The failed-attempts bookkeeping at an exit of PROCESS_FILE_CMD,
relative to the failedAttempts count `fa` at the installation of the
scope guard: leaving with an error costs exactly one failed attempt, a
successful exit to READ_NEXT_CMD costs none (and leaves no error). -/
def failedAttemptsSpec (fa : Int) (r : ReceiverState × Worker) : Prop :=
  (r.2.stats.localErrorCode ≠ .OK → r.2.stats.failedAttempts = fa + 1) ∧
  (r.1 = .READ_NEXT_CMD → r.2.stats.failedAttempts = fa ∧
    r.2.stats.localErrorCode = .OK)

theorem fileCmdFinish_failed (cfg : Config) (env : Env) (w : Worker) (hb fa : Int)
    (hfa : w.stats.failedAttempts = fa) (h : w.stats.localErrorCode = .OK) :
    failedAttemptsSpec fa (fileCmdFinish cfg env w hb) := by
  unfold failedAttemptsSpec
  simp only [fileCmdFinish, fileGuard, incrFailedAttempts, addEffectiveBytes,
    Checkpoint.incrNumBlocks]
  split_ifs <;> simp_all

theorem fileCmdTail_failed (cfg : Config) (env : Env) (w : Worker) (hb cks rd fa : Int)
    (hfa : w.stats.failedAttempts = fa) (h : w.stats.localErrorCode = .OK) :
    failedAttemptsSpec fa (fileCmdTail cfg env w hb cks rd) := by
  simp only [fileCmdTail]
  split
  · exact ⟨fun hc => absurd (h.symm.trans rfl) (by simpa using hc.symm),
      fun hs => by simp at hs⟩
  split
  · split
    · exact ⟨fun hc => absurd (h.symm.trans rfl) (by simpa using hc.symm),
        fun hs => by simp at hs⟩
    · split
      · exact ⟨fun _ => by
          simp [fileGuard, setLocalError, incrFailedAttempts, hfa],
          fun hs => by simp at hs⟩
      split
      · exact ⟨fun _ => by
          simp [fileGuard, setLocalError, incrFailedAttempts, hfa],
          fun hs => by simp at hs⟩
      split
      · exact ⟨fun _ => by
          simp [fileGuard, setLocalError, incrFailedAttempts, hfa],
          fun hs => by simp at hs⟩
      split
      · exact ⟨fun _ => by
          simp [fileGuard, setLocalError, incrFailedAttempts, hfa],
          fun hs => by simp at hs⟩
      · exact fileCmdFinish_failed cfg env _ hb fa (by exact hfa) (by exact h)
  · exact fileCmdFinish_failed cfg env _ hb fa (by exact hfa) (by exact h)

theorem fileCmdBody_failed (cfg : Config) (env : Env) (w : Worker) (hb fa : Int)
    (hfa : w.stats.failedAttempts = fa) (h : w.stats.localErrorCode = .OK) :
    failedAttemptsSpec fa (fileCmdBody cfg env w hb) := by
  simp only [fileCmdBody]
  split
  · exact ⟨fun _ => by
      simp only [fileGuard, writtenGuardApply, setLocalError, addEffectiveBytes,
        Checkpoint.setLastBlockDetails, incrFailedAttempts]
      split_ifs <;> simp_all,
      fun hs => by simp at hs⟩
  split
  · exact ⟨fun hc => absurd (h.symm.trans rfl) (by simpa using hc.symm),
      fun hs => by simp at hs⟩
  split
  · next hfw =>
    exact ⟨fun _ => by
      simp only [fileGuard, writtenGuardApply, setLocalError, addDataBytes, addEffectiveBytes,
        Checkpoint.setLastBlockDetails, incrFailedAttempts]
      split_ifs <;> simp_all,
      fun hs => by simp at hs⟩
  split
  · -- abort poll exit: no error recorded, guards run but count nothing
    exact ⟨fun hc => by
      simp only [fileGuard, writtenGuardApply, setLocalError, addDataBytes, addEffectiveBytes,
        Checkpoint.setLastBlockDetails, incrFailedAttempts] at hc
      split_ifs at hc <;> simp_all,
      fun hs => by simp at hs⟩
  · -- disk write error in the loop
    exact ⟨fun hc => by
      simp only [fileGuard, writtenGuardApply, setLocalError, addDataBytes, addEffectiveBytes,
        Checkpoint.setLastBlockDetails, incrFailedAttempts] at hc ⊢
      split_ifs at hc ⊢ <;> simp_all,
      fun hs => by simp at hs⟩
  · split
    · -- short payload: SocketReadError
      exact ⟨fun _ => by
        simp only [fileGuard, writtenGuardApply, setLocalError, addDataBytes, addEffectiveBytes,
          Checkpoint.setLastBlockDetails, incrFailedAttempts]
        split_ifs <;> simp_all,
        fun hs => by simp at hs⟩
    · exact fileCmdTail_failed cfg env _ hb _ _ fa (by exact hfa) (by exact h)

/-- C10: PROCESS_FILE_CMD increments failedAttempts by exactly one when
it exits with a non-OK local error code (any error path) and leaves it
unchanged when it exits successfully to READ_NEXT_CMD.  (The worker
enters the state with no pending error; error exits pass through the
scope guard of lines 374-378.) -/
theorem c10_failedAttempts (cfg : Config) (env : Env) (w : Worker)
    (h : w.stats.localErrorCode = .OK) :
    ((processFileCmd cfg env w).2.stats.localErrorCode ≠ .OK →
       (processFileCmd cfg env w).2.stats.failedAttempts = w.stats.failedAttempts + 1) ∧
    ((processFileCmd cfg env w).1 = .READ_NEXT_CMD →
       (processFileCmd cfg env w).2.stats.failedAttempts = w.stats.failedAttempts) := by
  have hmain : failedAttemptsSpec w.stats.failedAttempts (processFileCmd cfg env w) := by
    simp only [processFileCmd, fileCmdResumptionHeader, Checkpoint.resetLastBlockDetails]
    split
    · exact ⟨fun hc => absurd (h.symm.trans rfl) (by simpa using hc.symm),
        fun hs => by simp at hs⟩
    · split
      · exact ⟨fun _ => by
          simp [fileGuard, setLocalError, incrFailedAttempts],
          fun hs => by simp at hs⟩
      · split
        · exact ⟨fun hc => absurd (h.symm.trans rfl) (by simpa using hc.symm),
            fun hs => by simp at hs⟩
        · split
          · exact ⟨fun _ => by
              simp [fileGuard, setLocalError, addHeaderBytes, incrFailedAttempts],
              fun hs => by simp at hs⟩
          · exact fileCmdBody_failed cfg env _ _ w.stats.failedAttempts
              (by exact rfl) (by exact h)
  exact ⟨hmain.1, fun hs => (hmain.2 hs).1⟩

/-- Witness for C10: a FILE_CMD whose header cannot be fully read (single
EOF read) exits with SocketReadError and exactly one extra failed
attempt. -/
theorem c10_failedAttempts_witness :
    (processFileCmd cfg0 { headerLen := 300, headerReads := [0] }
        {w0 with numRead := 256, off := 1}).2.stats.failedAttempts =
      w0.stats.failedAttempts + 1 := by
  have h := c10_failedAttempts cfg0 { headerLen := 300, headerReads := [0] }
      {w0 with numRead := 256, off := 1} (by decide)
  exact h.1 (by decide)

/-- C9: when checksums are enabled and the FOOTER checksum does not match
the CRC accumulated over the payload, PROCESS_FILE_CMD returns
ACCEPT_WITH_TIMEOUT with ChecksumMismatch and leaves the commit state
untouched: numBlocks, effective bytes and the checkpoint's block count
are not incremented, no transfer-log entry is written, and the
checkpoint's lastBlock partial-progress details remain reset (the
writtenGuard was dismissed before the footer read) — even though, per
hypothesis h8, the write loop finished with the entire blockDataSize
bytes already written to disk.  The scope guard counts one failed
attempt. -/
theorem c9_checksum_mismatch (cfg : Config) (env : Env) (w : Worker)
    (nr offD rd toWrite cks0 cksF dbF nrF : Int)
    (h0 : w.enableChecksum = true)
    (h1 : fileCmdNumReadAfterHeader env w.bufferSize w.oldOffset w.numRead = some nr)
    (h2 : ¬ nr < env.headerLen)
    (hoff : offD = w.off + 1 + 2 + env.decodeHeaderAdvance)
    (h3 : env.headerLen = offD - w.oldOffset)
    (h4 : env.decodeHeaderOk = true)
    (h5 : env.writerOpen = .OK)
    (hrd : rd = nr + w.oldOffset - offD)
    (h6 : 0 ≤ rd)
    (htw : toWrite = if env.blockDataSize ≤ rd then env.blockDataSize else rd)
    (h7 : env.firstWriteCode = .OK)
    (hck : cks0 = env.crcStep 0 toWrite)
    (h8 : fileWriteLoop env.crcStep true env.blockDataSize env.fileLoop toWrite cks0 0 =
        .finished env.blockDataSize cksF dbF)
    (h9 : readAtLeast env.footerReads
        (w.bufferSize - (fileCmdLeftover cfg.kMaxHeader w.bufferSize (rd - toWrite)
            (offD + toWrite)).2)
        cfg.kMinBufLength
        (fileCmdLeftover cfg.kMaxHeader w.bufferSize (rd - toWrite) (offD + toWrite)).1 =
        some nrF)
    (h10 : ¬ nrF < cfg.kMinBufLength)
    (h11 : env.footerCmd = .FOOTER_CMD)
    (h12 : env.decodeFooterOk = true)
    (h13 : cksF ≠ env.receivedChecksum) :
    (processFileCmd cfg env w).1 = .ACCEPT_WITH_TIMEOUT ∧
    (processFileCmd cfg env w).2.stats.localErrorCode = .CHECKSUM_MISMATCH ∧
    (processFileCmd cfg env w).2.stats.numBlocks = w.stats.numBlocks ∧
    (processFileCmd cfg env w).2.stats.effectiveHeaderBytes = w.stats.effectiveHeaderBytes ∧
    (processFileCmd cfg env w).2.stats.effectiveDataBytes = w.stats.effectiveDataBytes ∧
    (processFileCmd cfg env w).2.checkpoint.numBlocks = w.checkpoint.numBlocks ∧
    (processFileCmd cfg env w).2.checkpoint.hasSeqId = false ∧
    (processFileCmd cfg env w).2.checkpoint.lastBlockSeqId = 0 ∧
    (processFileCmd cfg env w).2.checkpoint.lastBlockOffset = 0 ∧
    (processFileCmd cfg env w).2.checkpoint.lastBlockBytes = 0 ∧
    (processFileCmd cfg env w).2.transferLog = w.transferLog ∧
    (processFileCmd cfg env w).2.stats.failedAttempts = w.stats.failedAttempts + 1 := by
  have h6' : 0 ≤ rd - toWrite := by rw [htw]; split_ifs <;> omega
  subst hoff hrd htw hck
  simp only [processFileCmd, fileCmdResumptionHeader, Checkpoint.resetLastBlockDetails,
    addHeaderBytes, h1]
  rw [if_neg h2, if_neg (by omega), if_neg (by simp [h4])]
  simp only [fileCmdBody, addDataBytes]
  rw [if_neg (by simp [h5]), if_neg (by omega), if_neg (by simp [h7])]
  simp only [h0, ite_true, h8]
  rw [if_neg (by simp)]
  simp only [fileCmdTail]
  rw [if_neg (by omega)]
  simp only [h0, ite_true, h9]
  rw [if_neg h10, if_neg (by simp [h11]), if_neg (by simp [h12]), if_pos h13]
  simp [fileGuard, setLocalError, incrFailedAttempts, addHeaderBytes, addDataBytes]

/-- Witness for C9: a 4-byte block fully contained in the buffer whose
FOOTER carries checksum 1 while the accumulated CRC is 0 is rejected with
ChecksumMismatch, ACCEPT_WITH_TIMEOUT, and no commit. -/
theorem c9_checksum_mismatch_witness :
    (processFileCmd cfg0
        { headerLen := 10, decodeHeaderAdvance := 6, blockDataSize := 4,
          footerReads := [256], receivedChecksum := 1 }
        {w0 with enableChecksum := true, numRead := 256, off := 1,
                 oldOffset := 0}).1 = .ACCEPT_WITH_TIMEOUT ∧
    (processFileCmd cfg0
        { headerLen := 10, decodeHeaderAdvance := 6, blockDataSize := 4,
          footerReads := [256], receivedChecksum := 1 }
        {w0 with enableChecksum := true, numRead := 256, off := 1,
                 oldOffset := 0}).2.stats.localErrorCode = .CHECKSUM_MISMATCH ∧
    (processFileCmd cfg0
        { headerLen := 10, decodeHeaderAdvance := 6, blockDataSize := 4,
          footerReads := [256], receivedChecksum := 1 }
        {w0 with enableChecksum := true, numRead := 256, off := 1,
                 oldOffset := 0}).2.stats.numBlocks = 0 := by
  have h := c9_checksum_mismatch cfg0
      { headerLen := 10, decodeHeaderAdvance := 6, blockDataSize := 4,
        footerReads := [256], receivedChecksum := 1 }
      {w0 with enableChecksum := true, numRead := 256, off := 1, oldOffset := 0}
      256 10 246 4 0 0 0 498
      rfl (by decide) (by decide) (by decide) (by decide) rfl rfl (by decide) (by decide)
      (by decide) rfl rfl (by decide) (by decide) (by decide) rfl rfl (by decide)
  exact ⟨h.1, h.2.1, h.2.2.1.trans (by decide)⟩

end Wdt
